import Mathlib

/-!
# Opticks plug-in modules and the NITF exporter

A shallow embedding of

* `Code/application/PlugIns/src/Georeference/ModuleManager.cpp`
* `Code/application/PlugIns/src/PlugInSamplerHdf/ModuleManager.cpp`
* `Code/application/PlugIns/src/Nitf/NitfExporter.cpp`

Pointers are `Option`s (`none` is `NULL`), `unsigned int` values are natural
numbers, and objects of the OSSIM library are represented by the sequence of
setter calls they have received.
-/

/-- The plug-in classes instantiated by the module managers. -/
inductive PlugIn
  | GeoreferencePlugIn
  | GcpGeoreference
  | SampleHdf4Importer
  deriving DecidableEq, Repr

namespace Georeference
namespace ModuleManager

/-- `ModuleManager::getTotalPlugIns` of the Georeference module. -/
def getTotalPlugIns : Nat := 2

/-- `ModuleManager::getPlugIn` of the Georeference module: a `switch` on the
plug-in number whose `default` leaves the result `NULL`. -/
def getPlugIn (plugInNumber : Nat) : Option PlugIn :=
  match plugInNumber with
  | 0 => some PlugIn.GeoreferencePlugIn
  | 1 => some PlugIn.GcpGeoreference
  | _ => none

end ModuleManager
end Georeference

namespace PlugInSamplerHdf
namespace ModuleManager

/-- `ModuleManager::getTotalPlugIns` of the HDF sampler module; the
preprocessor symbol `HDF4_SUPPORT` is a parameter. -/
def getTotalPlugIns (HDF4_SUPPORT : Bool) : Nat :=
  if HDF4_SUPPORT then 1 else 0

/-- `ModuleManager::getPlugIn` of the HDF sampler module; `case 0` exists only
when `HDF4_SUPPORT` is defined. -/
def getPlugIn (HDF4_SUPPORT : Bool) (plugInNumber : Nat) : Option PlugIn :=
  if HDF4_SUPPORT then
    match plugInNumber with
    | 0 => some PlugIn.SampleHdf4Importer
    | _ => none
  else
    match plugInNumber with
    | _ => none

end ModuleManager
end PlugInSamplerHdf


namespace Nitf

/-! ## Data model of `NitfExporter.cpp` -/

/-- Raster encoding types. The exporter names two members, the complex ones;
every other member of the enumeration is `other`. -/
inductive EncodingType
  | INT4SCOMPLEX
  | FLT8COMPLEX
  | other (tag : Nat)
  deriving DecidableEq, Repr

/-- Result of `Exporter::validate`. -/
inductive ValidationResultType
  | VALIDATE_FAILURE
  | VALIDATE_INFO
  | VALIDATE_SUCCESS
  deriving DecidableEq, Repr

/-- Severity passed to `Progress::updateProgress`. -/
inductive ReportingLevel
  | NORMAL
  | ERRORS
  deriving DecidableEq, Repr

/-- Display mode of a raster layer. -/
inductive DisplayMode
  | GRAYSCALE_MODE
  | RGB_MODE
  deriving DecidableEq, Repr

/-- Display channel of a raster layer. -/
inductive RasterChannelType
  | GRAY
  | RED
  | GREEN
  | BLUE
  deriving DecidableEq, Repr

/-- A `DateTime`; the exporter only asks for its formatted UTC text. -/
structure DateTime where
  getFormattedUtc : String → String

/-- The getters of `Classification` read by the exporter. -/
structure Classification where
  getLevel : String
  getSystem : String
  getCodewords : String
  getFileControl : String
  getFileReleasing : String
  getDeclassificationType : String
  getDeclassificationDate : Option DateTime
  getDeclassificationExemption : String
  getFileDowngrade : String
  getDowngradeDate : Option DateTime
  getAuthorityType : String
  getAuthority : String
  getClassificationReason : String
  getSecuritySourceDate : Option DateTime
  getSecurityControlNumber : String
  getFileCopyNumber : String
  getFileNumberOfCopies : String
  getDescription : String

/-- The field selectors of `OptionsNitfExporter` used by the exporter. -/
inductive OptionsField
  | LEVEL
  | SYSTEM
  | CODEWORDS
  | FILE_CONTROL
  | FILE_RELEASING
  | DECLASSIFICATION_TYPE
  | DECLASSIFICATION_DATE
  | DECLASSIFICATION_EXEMPTION
  | FILE_DOWNGRADE
  | DOWNGRADE_DATE
  | AUTHORITY_TYPE
  | AUTHORITY
  | CLASSIFICATION_REASON
  | SOURCE_DATE
  | SECURITY_CONTROL_NUMBER
  | FILE_COPY_NUMBER
  | FILE_NUMBER_OF_COPIES
  | DESCRIPTION
  deriving DecidableEq, Repr

/-- The export options widget: the user-modified value of every field, and
`isValid`, which maps the incoming error message to a verdict and the
outgoing error message. -/
structure OptionsNitfExporter where
  getModifiedValue : OptionsField → String
  isValid : String → Bool × String

/-- A band descriptor: a number is `none` when the matching `is...Valid`
query answers false. -/
structure DimensionDescriptor where
  getOriginalNumber : Option Nat
  getOnDiskNumber : Option Nat

/-- The export descriptor (`RasterFileDescriptor`). -/
structure RasterFileDescriptor where
  getFilename : String
  getColumnCount : Nat
  getRowCount : Nat
  getBandCount : Nat
  getOriginalBand : Nat → DimensionDescriptor

/-- A data descriptor. `getDataType` is `none` when the descriptor is not a
`RasterDataDescriptor`, that is when the `dynamic_cast` of `execute` fails. -/
structure DataDescriptor where
  getDataType : Option EncodingType
  getClassification : Option Classification

/-- A raster element; `address` stands for the identity of the object, which
the exporter compares with `==`. -/
structure RasterElement where
  address : Nat
  getDataDescriptor : Option DataDescriptor

/-- A raster layer. -/
structure RasterLayer where
  getDisplayMode : DisplayMode
  getDisplayedRasterElement : RasterChannelType → Option Nat
  getDisplayedBand : RasterChannelType → DimensionDescriptor

/-- A layer list. `getLayer` is the result of `getLayer(RASTER, pElement)`
cast to `RasterLayer`, keyed by the address of the element (`none` for the
NULL element). -/
structure LayerList where
  getPrimaryRasterElement : Option Nat
  getLayer : Option Nat → Option RasterLayer

/-- An RGB colour. -/
structure ColorType where
  mRed : Nat
  mGreen : Nat
  mBlue : Nat
  deriving DecidableEq, Repr

/-- A spatial data view. -/
structure SpatialDataView where
  getLayerList : Option LayerList
  getBackgroundColor : ColorType

/-- A view; `asSpatialDataView` is `none` when the `dynamic_cast` to
`SpatialDataView` fails. -/
structure View where
  asSpatialDataView : Option SpatialDataView

/-- One call of `Progress::updateProgress`. -/
structure ProgressUpdate where
  text : String
  percent : Nat
  level : ReportingLevel
  deriving DecidableEq, Repr

/-- A progress object is the list of the updates it has received. -/
abbrev Progress := List ProgressUpdate

/-- The argument list of the exporter. Each argument is `none` when
`getPlugInArgValue` yields NULL, or for the boolean argument when the
two-argument `getPlugInArgValue` returns false. -/
structure PlugInArgList where
  progress : Option Progress
  exportDescriptor : Option RasterFileDescriptor
  exportItem : Option RasterElement
  view : Option View
  classificationMustBeValid : Option Bool

/-- Setter calls issued by the exporter on `ossimNitfFileHeaderV2_1`. -/
inductive FileHeaderCall
  | setFileBackgroundColor (r g b : Nat)
  | setFileSecurityClassification (s : String)
  | setSecurityClassificationSys (s : String)
  | setCodeWords (s : String)
  | setControlAndHandling (s : String)
  | setReleasingInstructions (s : String)
  | setDeclassificationType (s : String)
  | setDeclassificationDate (s : String)
  | setDeclassificationExemption (s : String)
  | setDowngrade (s : String)
  | setDowngradingDate (s : String)
  | setClassificationAuthorityType (s : String)
  | setClassificationAuthority (s : String)
  | setClassificationReason (s : String)
  | setSecuritySourceDate (s : String)
  | setSecurityControlNumber (s : String)
  | setCopyNumber (s : String)
  | setNumberOfCopies (s : String)
  | setClassificationText (s : String)
  deriving DecidableEq, Repr

/-- Setter calls issued by the exporter on `ossimNitfImageHeaderV2_1`. -/
inductive ImageHeaderCall
  | setNumberOfBands (n : Nat)
  | setBandInfo (idx : Nat) (bandRepresentation : String)
  | setRepresentation (s : String)
  | setSecurityClassification (s : String)
  | setSecurityClassificationSystem (s : String)
  | setCodewords (s : String)
  | setControlAndHandling (s : String)
  | setReleasingInstructions (s : String)
  | setDeclassificationType (s : String)
  | setDeclassificationDate (s : String)
  | setDeclassificationExempt (s : String)
  | setDowngrade (s : String)
  | setDowngradeDate (s : String)
  | setClassificationAuthorityType (s : String)
  | setClassificationAuthority (s : String)
  | setClassificationReason (s : String)
  | setSecuritySourceDate (s : String)
  | setSecurityControlNumber (s : String)
  | setClassificationText (s : String)
  deriving DecidableEq, Repr

/-- An OSSIM file header: the setter calls it has received, oldest first. -/
abbrev FileHeader := List FileHeaderCall

/-- An OSSIM image header: the setter calls it has received, oldest first. -/
abbrev ImageHeader := List ImageHeaderCall

/-- Calls on the OSSIM file writer that `execute` makes around the export
stages; `exportMetadata` records that `Nitf::exportMetadata` was handed the
writer. -/
inductive WriterCall
  | setFilename (fn : String)
  | addListener
  | exportMetadata
  | execute
  | removeListener
  deriving DecidableEq, Repr

/-- The `ossimNitfWriter`: its two headers (`none` when the getter yields
NULL) and the calls it has received, oldest first. -/
structure Writer where
  getFileHeader : Option FileHeader
  getImageHeader : Option ImageHeader
  calls : List WriterCall
  deriving DecidableEq, Repr

/-- String constants of `Nitf::ImageSubheaderFieldValues` (declared in
`NitfConstants.h`). -/
structure ImageSubheaderFieldValues where
  BAND_REPRESENTATIONS_RED : String
  BAND_REPRESENTATIONS_GREEN : String
  BAND_REPRESENTATIONS_BLUE : String
  REPRESENTATION_MULTI : String

/-- What the exporter obtains from code outside `NitfExporter.cpp`.

* `isClassificationValidForExport`: the verdict of
  `Nitf::isClassificationValidForExport`;
* `classificationErrorMessage`: what the two-argument form of that function
  leaves in its error message argument, given what the argument held;
* `newOptionsNitfExporter`: the widget built by `new OptionsNitfExporter`;
* `createWriter`: the writer made by the OSSIM factory and cast to
  `ossimNitfWriter`, `none` when that is NULL;
* `exportMetadata`: the value `Nitf::exportMetadata` returns if it is called;
* `writerExecute`: the value the writer's `execute()` returns if it is called;
* `constants`: the band representation strings. -/
structure Environment where
  isClassificationValidForExport : Classification → Bool
  classificationErrorMessage : Classification → String → String
  newOptionsNitfExporter : Classification → OptionsNitfExporter
  createWriter : Option Writer
  exportMetadata : Bool
  writerExecute : Bool
  constants : ImageSubheaderFieldValues

/-- The member variables of `NitfExporter`, together with `isBatch()`. -/
structure NitfExporter where
  isBatch : Bool
  mpOptionsWidget : Option OptionsNitfExporter
  mpRaster : Option RasterElement
  mpRasterLayer : Option RasterLayer
  mpProgress : Option Progress
  mpDestination : Option RasterFileDescriptor
  mbAborted : Bool

/-- How a `bool` member function ended: through a failed `VERIFY` (which logs
and returns false) or through one of its own `return` statements. -/
inductive Outcome
  | verifyFailed
  | returned (status : Bool)
  deriving DecidableEq, Repr

/-- The C++ return value of an outcome. -/
def Outcome.value : Outcome → Bool
  | Outcome.verifyFailed => false
  | Outcome.returned status => status

end Nitf

namespace Nitf

/-! ## Operations of `NitfExporter.cpp` -/

/-- The eighteen local marking strings of `exportClassification`. -/
structure Markings where
  level : String
  system : String
  codewords : String
  controlHandling : String
  releasing : String
  declassType : String
  declassDate : String
  declassExempt : String
  downgrade : String
  downgradingDate : String
  classificationAuthorityType : String
  classificationAuthority : String
  classificationReason : String
  securitySourceDate : String
  securityControlNumber : String
  copyNumber : String
  numberOfCopies : String
  classificationText : String
  deriving DecidableEq, Repr

/-- A date local of `exportClassification`: empty unless the date exists. -/
def formatDate (pDateTime : Option DateTime) : String :=
  match pDateTime with
  | some d => d.getFormattedUtc "%Y%m%d"
  | none => ""

/-- Lines 327-363: the initial values, read from the classification. -/
def initialMarkings (c : Classification) : Markings :=
  { level := c.getLevel
    system := c.getSystem
    codewords := c.getCodewords
    controlHandling := c.getFileControl
    releasing := c.getFileReleasing
    declassType := c.getDeclassificationType
    declassDate := formatDate c.getDeclassificationDate
    declassExempt := c.getDeclassificationExemption
    downgrade := c.getFileDowngrade
    downgradingDate := formatDate c.getDowngradeDate
    classificationAuthorityType := c.getAuthorityType
    classificationAuthority := c.getAuthority
    classificationReason := c.getClassificationReason
    securitySourceDate := formatDate c.getSecuritySourceDate
    securityControlNumber := c.getSecurityControlNumber
    copyNumber := c.getFileCopyNumber
    numberOfCopies := c.getFileNumberOfCopies
    classificationText := c.getDescription }

/-- Lines 381-399: the user-modified values, read from the options widget. -/
def modifiedMarkings (w : OptionsNitfExporter) : Markings :=
  { level := w.getModifiedValue OptionsField.LEVEL
    system := w.getModifiedValue OptionsField.SYSTEM
    codewords := w.getModifiedValue OptionsField.CODEWORDS
    controlHandling := w.getModifiedValue OptionsField.FILE_CONTROL
    releasing := w.getModifiedValue OptionsField.FILE_RELEASING
    declassType := w.getModifiedValue OptionsField.DECLASSIFICATION_TYPE
    declassDate := w.getModifiedValue OptionsField.DECLASSIFICATION_DATE
    declassExempt := w.getModifiedValue OptionsField.DECLASSIFICATION_EXEMPTION
    downgrade := w.getModifiedValue OptionsField.FILE_DOWNGRADE
    downgradingDate := w.getModifiedValue OptionsField.DOWNGRADE_DATE
    classificationAuthorityType := w.getModifiedValue OptionsField.AUTHORITY_TYPE
    classificationAuthority := w.getModifiedValue OptionsField.AUTHORITY
    classificationReason := w.getModifiedValue OptionsField.CLASSIFICATION_REASON
    securitySourceDate := w.getModifiedValue OptionsField.SOURCE_DATE
    securityControlNumber := w.getModifiedValue OptionsField.SECURITY_CONTROL_NUMBER
    copyNumber := w.getModifiedValue OptionsField.FILE_COPY_NUMBER
    numberOfCopies := w.getModifiedValue OptionsField.FILE_NUMBER_OF_COPIES
    classificationText := w.getModifiedValue OptionsField.DESCRIPTION }

/-- Lines 409-426: the setter calls made on the file header, in order. -/
def fileHeaderMarkingCalls (m : Markings) : List FileHeaderCall :=
  [ FileHeaderCall.setFileSecurityClassification m.level,
    FileHeaderCall.setSecurityClassificationSys m.system,
    FileHeaderCall.setCodeWords m.codewords,
    FileHeaderCall.setControlAndHandling m.controlHandling,
    FileHeaderCall.setReleasingInstructions m.releasing,
    FileHeaderCall.setDeclassificationType m.declassType,
    FileHeaderCall.setDeclassificationDate m.declassDate,
    FileHeaderCall.setDeclassificationExemption m.declassExempt,
    FileHeaderCall.setDowngrade m.downgrade,
    FileHeaderCall.setDowngradingDate m.downgradingDate,
    FileHeaderCall.setClassificationAuthorityType m.classificationAuthorityType,
    FileHeaderCall.setClassificationAuthority m.classificationAuthority,
    FileHeaderCall.setClassificationReason m.classificationReason,
    FileHeaderCall.setSecuritySourceDate m.securitySourceDate,
    FileHeaderCall.setSecurityControlNumber m.securityControlNumber,
    FileHeaderCall.setCopyNumber m.copyNumber,
    FileHeaderCall.setNumberOfCopies m.numberOfCopies,
    FileHeaderCall.setClassificationText m.classificationText ]

/-- Lines 428-443: the setter calls made on the image header, in order. -/
def imageHeaderMarkingCalls (m : Markings) : List ImageHeaderCall :=
  [ ImageHeaderCall.setSecurityClassification m.level,
    ImageHeaderCall.setSecurityClassificationSystem m.system,
    ImageHeaderCall.setCodewords m.codewords,
    ImageHeaderCall.setControlAndHandling m.controlHandling,
    ImageHeaderCall.setReleasingInstructions m.releasing,
    ImageHeaderCall.setDeclassificationType m.declassType,
    ImageHeaderCall.setDeclassificationDate m.declassDate,
    ImageHeaderCall.setDeclassificationExempt m.declassExempt,
    ImageHeaderCall.setDowngrade m.downgrade,
    ImageHeaderCall.setDowngradeDate m.downgradingDate,
    ImageHeaderCall.setClassificationAuthorityType m.classificationAuthorityType,
    ImageHeaderCall.setClassificationAuthority m.classificationAuthority,
    ImageHeaderCall.setClassificationReason m.classificationReason,
    ImageHeaderCall.setSecuritySourceDate m.securitySourceDate,
    ImageHeaderCall.setSecurityControlNumber m.securityControlNumber,
    ImageHeaderCall.setClassificationText m.classificationText ]

namespace NitfExporter

/-- `NitfExporter::validateExportDescriptor`: the verdict and the error
message afterwards. A NULL descriptor fails the `VERIFY`, which returns
false. -/
def validateExportDescriptor (pDescriptor : Option RasterFileDescriptor)
    (errorMessage : String) : Bool × String :=
  match pDescriptor with
  | none => (false, errorMessage)
  | some d =>
    if d.getColumnCount > 204800 ∨ d.getRowCount > 204800 then
      (false, errorMessage ++ "NITF export of more than 204,800 rows or columns is unsupported.\n")
    else
      (true, errorMessage)

/-- `NitfExporter::getExportOptionsWidget`: the widget returned (`none` for
NULL) and the exporter afterwards, whose `mpOptionsWidget` may have been
created. Each failing `VERIFYRV` returns NULL. -/
def getExportOptionsWidget (env : Environment) (self : NitfExporter)
    (pInArgList : PlugInArgList) : Option OptionsNitfExporter × NitfExporter :=
  if self.isBatch = true then
    (none, self)
  else
    match self.mpOptionsWidget with
    | some w => (some w, self)
    | none =>
      match pInArgList.exportItem with
      | none => (none, self)
      | some pRasterElement =>
        match pRasterElement.getDataDescriptor with
        | none => (none, self)
        | some pDataDescriptor =>
          match pDataDescriptor.getClassification with
          | none => (none, self)
          | some pClassification =>
            let pOptions := env.newOptionsNitfExporter pClassification
            (some pOptions, { self with mpOptionsWidget := some pOptions })

/-- What `exportClassification` leaves behind. -/
structure ClassificationResult where
  outcome : Outcome
  self : NitfExporter
  fileHeader : Option FileHeader
  imageHeader : Option ImageHeader
  errorMessage : String

/-- Lines 403-446 of `exportClassification`: the markings are written to both
headers unless the level is `"U"`, and the function returns true. -/
def writeMarkings (m : Markings) (self : NitfExporter) (fh : FileHeader)
    (ih : ImageHeader) (errorMessage : String) : ClassificationResult :=
  if m.level ≠ "U" then
    { outcome := Outcome.returned true
      self := self
      fileHeader := some (fh ++ fileHeaderMarkingCalls m)
      imageHeader := some (ih ++ imageHeaderMarkingCalls m)
      errorMessage := errorMessage }
  else
    { outcome := Outcome.returned true
      self := self
      fileHeader := some fh
      imageHeader := some ih
      errorMessage := errorMessage }

/-- `NitfExporter::exportClassification`. -/
def exportClassification (env : Environment) (self : NitfExporter)
    (pArgList : Option PlugInArgList) (pClassification : Option Classification)
    (pFileHeader : Option FileHeader) (pImageHeader : Option ImageHeader)
    (errorMessage : String) : ClassificationResult :=
  match pArgList, pClassification, pFileHeader, pImageHeader with
  | some args, some c, some fh, some ih =>
    if env.isClassificationValidForExport c = false then
      match getExportOptionsWidget env self args with
      | (none, self1) =>
        if self1.isBatch = true then
          match args.classificationMustBeValid with
          | none =>
            { outcome := Outcome.verifyFailed, self := self1, fileHeader := some fh,
              imageHeader := some ih, errorMessage := errorMessage }
          | some classificationMustBeValid =>
            if classificationMustBeValid = true then
              { outcome := Outcome.returned false, self := self1, fileHeader := some fh,
                imageHeader := some ih, errorMessage := "Classification is not valid." }
            else
              writeMarkings (initialMarkings c) self1 fh ih errorMessage
        else
          { outcome := Outcome.verifyFailed, self := self1, fileHeader := some fh,
            imageHeader := some ih, errorMessage := errorMessage }
      | (some w, self1) =>
        writeMarkings (modifiedMarkings w) self1 fh ih errorMessage
    else
      writeMarkings (initialMarkings c) self fh ih errorMessage
  | _, _, _, _ =>
    { outcome := Outcome.verifyFailed, self := self, fileHeader := pFileHeader,
      imageHeader := pImageHeader, errorMessage := errorMessage }

/-- `NitfExporter::validate`: the result, the error message afterwards and the
exporter afterwards (the options widget may have been created). -/
def validate (env : Environment) (self : NitfExporter) (pArgList : Option PlugInArgList)
    (errorMessage : String) : ValidationResultType × String × NitfExporter :=
  match pArgList with
  | none => (ValidationResultType.VALIDATE_FAILURE, errorMessage, self)
  | some args =>
    match validateExportDescriptor args.exportDescriptor errorMessage with
    | (false, errorMessage1) => (ValidationResultType.VALIDATE_FAILURE, errorMessage1, self)
    | (true, errorMessage1) =>
      match getExportOptionsWidget env self args with
      | (none, self1) =>
        if self1.isBatch = true then
          match args.classificationMustBeValid with
          | none => (ValidationResultType.VALIDATE_FAILURE, errorMessage1, self1)
          | some classificationMustBeValid =>
            if classificationMustBeValid = false then
              (ValidationResultType.VALIDATE_SUCCESS, errorMessage1, self1)
            else
              match args.exportItem with
              | none =>
                (ValidationResultType.VALIDATE_FAILURE,
                  "Unable to obtain the Raster Element.", self1)
              | some pRasterElement =>
                match pRasterElement.getDataDescriptor with
                | none =>
                  (ValidationResultType.VALIDATE_FAILURE,
                    "Unable to obtain the Data Descriptor.", self1)
                | some pDataDescriptor =>
                  match pDataDescriptor.getClassification with
                  | none =>
                    (ValidationResultType.VALIDATE_FAILURE,
                      "Unable to obtain the Classification.", self1)
                  | some pClassification =>
                    if env.isClassificationValidForExport pClassification = false then
                      (ValidationResultType.VALIDATE_FAILURE,
                        "Invalid classification markings.\n" ++
                          env.classificationErrorMessage pClassification errorMessage1, self1)
                    else
                      (ValidationResultType.VALIDATE_SUCCESS,
                        env.classificationErrorMessage pClassification errorMessage1, self1)
        else
          (ValidationResultType.VALIDATE_FAILURE, errorMessage1, self1)
      | (some w, self1) =>
        if (w.isValid errorMessage1).1 = false then
          (ValidationResultType.VALIDATE_INFO,
            (w.isValid errorMessage1).2 ++
              "To accept these values, click \"Ok\".\n" ++
              "To modify these values, click \"Options\".\n" ++
              "To cancel the export, click \"Cancel\".",
            self1)
        else
          (ValidationResultType.VALIDATE_SUCCESS, (w.isValid errorMessage1).2, self1)

/-- `NitfExporter::setBandRepresentation`: the value returned and the image
header afterwards. -/
def setBandRepresentation (self : NitfExporter) (eColor : RasterChannelType)
    (representation : String) (pImageHeader : Option ImageHeader) :
    Bool × Option ImageHeader :=
  match self.mpDestination, self.mpRasterLayer, pImageHeader with
  | some dest, some layer, some ih =>
    if layer.getDisplayedRasterElement eColor = self.mpRaster.map RasterElement.address then
      match (layer.getDisplayedBand eColor).getOriginalNumber with
      | some original =>
        match (dest.getOriginalBand original).getOnDiskNumber with
        | some onDisk =>
          (true, some (ih ++ [ImageHeaderCall.setBandInfo onDisk representation]))
        | none => (false, some ih)
      | none => (false, some ih)
    else
      (false, some ih)
  | _, _, _ => (false, pImageHeader)

/-- What `execute` leaves behind; `writer` is `none` until the writer exists. -/
structure ExecuteResult where
  outcome : Outcome
  self : NitfExporter
  writer : Option Writer
  errorMessage : String

/-- What lines 214-243 of `execute` leave behind; `verified` is false when the
`VERIFY` on the raster layer failed. -/
structure ViewResult where
  verified : Bool
  self : NitfExporter
  fileHeader : Option FileHeader
  imageHeader : Option ImageHeader

/-- Lines 214-243 of `execute`: when the view shows the exported raster as
its primary element, the background colour goes to the file header and the
band count and band representations go to the image header. -/
def exportView (env : Environment) (self : NitfExporter) (args : PlugInArgList)
    (dest : RasterFileDescriptor) (pFileHeader : Option FileHeader)
    (pImageHeader : Option ImageHeader) : ViewResult :=
  match args.view.bind View.asSpatialDataView with
  | none =>
    { verified := true, self := self, fileHeader := pFileHeader, imageHeader := pImageHeader }
  | some pView =>
    match pView.getLayerList with
    | none =>
      { verified := true, self := self, fileHeader := pFileHeader, imageHeader := pImageHeader }
    | some pLayerList =>
      if pLayerList.getPrimaryRasterElement = self.mpRaster.map RasterElement.address then
        let fh1 := pFileHeader.map fun h =>
          h ++ [FileHeaderCall.setFileBackgroundColor pView.getBackgroundColor.mRed
            pView.getBackgroundColor.mGreen pView.getBackgroundColor.mBlue]
        let ih1 := pImageHeader.map fun h =>
          h ++ [ImageHeaderCall.setNumberOfBands dest.getBandCount]
        let self1 : NitfExporter :=
          { self with
            mpRasterLayer := pLayerList.getLayer (self.mpRaster.map RasterElement.address) }
        match self1.mpRasterLayer with
        | none => { verified := false, self := self1, fileHeader := fh1, imageHeader := ih1 }
        | some layer =>
          if layer.getDisplayMode = DisplayMode.RGB_MODE then
            let ih2 := (setBandRepresentation self1 RasterChannelType.RED
              env.constants.BAND_REPRESENTATIONS_RED ih1).2
            let ih3 := (setBandRepresentation self1 RasterChannelType.GREEN
              env.constants.BAND_REPRESENTATIONS_GREEN ih2).2
            let ih4 := (setBandRepresentation self1 RasterChannelType.BLUE
              env.constants.BAND_REPRESENTATIONS_BLUE ih3).2
            { verified := true, self := self1, fileHeader := fh1,
              imageHeader := ih4.map fun h =>
                h ++ [ImageHeaderCall.setRepresentation env.constants.REPRESENTATION_MULTI] }
          else
            { verified := true, self := self1, fileHeader := fh1, imageHeader := ih1 }
      else
        { verified := true, self := self, fileHeader := pFileHeader,
          imageHeader := pImageHeader }

/-- Whether a data type is one of the two complex types `execute` rejects. -/
def isComplex (dataType : EncodingType) : Bool :=
  decide (dataType = EncodingType.INT4SCOMPLEX ∨ dataType = EncodingType.FLT8COMPLEX)

/-- Lines 256-270 of `execute`: the listener is removed, progress is reported
and the status is returned. -/
def finish (self : NitfExporter) (w : Writer) (status : Bool) (errorMessage : String) :
    ExecuteResult :=
  { outcome := Outcome.returned status
    self :=
      { self with
        mpProgress := self.mpProgress.map fun p =>
          if status = true then
            p ++ [{ text := "Export complete", percent := 100, level := ReportingLevel.NORMAL }]
          else
            p ++ [{ text := errorMessage, percent := 100, level := ReportingLevel.ERRORS }] }
    writer := some { w with calls := w.calls ++ [WriterCall.removeListener] }
    errorMessage := errorMessage }

/-- Lines 192-270 of `execute`, entered once the arguments, the writer and
its headers have been verified: the five export stages in sequence. Here
`dest` is the object `mpDestination` points to and `raster` the object
`mpRaster` points to. -/
def executeStages (env : Environment) (self : NitfExporter) (args : PlugInArgList)
    (dest : RasterFileDescriptor) (raster : RasterElement) (w : Writer) : ExecuteResult :=
  match raster.getDataDescriptor.bind DataDescriptor.getDataType with
  | none =>
    { outcome := Outcome.verifyFailed, self := self, writer := some w, errorMessage := "" }
  | some dataType =>
    if isComplex dataType = true then
      finish self w false
        "NITF export for complex numbers is unsupported. Please use another exporter."
    else
      match validateExportDescriptor (some dest) "" with
      | (false, errorMessage) => finish self w false errorMessage
      | (true, errorMessage) =>
        let w1 : Writer := { w with calls := w.calls ++ [WriterCall.exportMetadata] }
        if env.exportMetadata = false then
          finish self w1 false "NITF metadata export failed"
        else
          let v := exportView env self args dest w1.getFileHeader w1.getImageHeader
          let w2 : Writer :=
            { w1 with getFileHeader := v.fileHeader, getImageHeader := v.imageHeader }
          if v.verified = false then
            { outcome := Outcome.verifyFailed, self := v.self, writer := some w2,
              errorMessage := errorMessage }
          else
            let c := exportClassification env v.self (some args)
              (raster.getDataDescriptor.bind DataDescriptor.getClassification)
              v.fileHeader v.imageHeader errorMessage
            let w3 : Writer :=
              { w2 with getFileHeader := c.fileHeader, getImageHeader := c.imageHeader }
            if c.outcome.value = true then
              let w4 : Writer := { w3 with calls := w3.calls ++ [WriterCall.execute] }
              if env.writerExecute = false then
                finish c.self w4 false "Error writing the NITF file"
              else
                finish c.self w4 true c.errorMessage
            else
              finish c.self w3 false c.errorMessage

/-- `NitfExporter::execute`. Lines 113-186 verify the arguments, create the
writer, connect it to the raster through a band selector and configure it;
`executeStages` is the remainder. Of the set-up only the listener and the
file name are recorded on the writer: the memory source, the band selector
(whose `VERIFY` cannot fail, the pointer coming from `new`) and the writer
flags play no part in what follows. The message log step is not modelled. -/
def execute (env : Environment) (self : NitfExporter) (pInParam : Option PlugInArgList) :
    ExecuteResult :=
  match pInParam with
  | none =>
    { outcome := Outcome.verifyFailed, self := self, writer := none, errorMessage := "" }
  | some args =>
    let self1 : NitfExporter := { self with mpProgress := args.progress }
    match args.progress with
    | none =>
      { outcome := Outcome.verifyFailed, self := self1, writer := none, errorMessage := "" }
    | some _ =>
      let self2 : NitfExporter := { self1 with mpDestination := args.exportDescriptor }
      match args.exportDescriptor with
      | none =>
        { outcome := Outcome.verifyFailed, self := self2, writer := none, errorMessage := "" }
      | some dest =>
        let self3 : NitfExporter := { self2 with mpRaster := args.exportItem }
        match args.exportItem with
        | none =>
          { outcome := Outcome.verifyFailed, self := self3, writer := none, errorMessage := "" }
        | some raster =>
          match env.createWriter with
          | none =>
            { outcome := Outcome.verifyFailed, self := self3, writer := none,
              errorMessage := "" }
          | some w =>
            if w.getFileHeader.isSome = true ∧ w.getImageHeader.isSome = true then
              let w1 : Writer :=
                { w with
                  calls := w.calls ++ [WriterCall.addListener,
                    WriterCall.setFilename dest.getFilename] }
              let self4 : NitfExporter :=
                { self3 with
                  mpProgress := self3.mpProgress.map fun p =>
                    p ++ [{ text := "Writing metadata", percent := 0,
                            level := ReportingLevel.NORMAL }] }
              executeStages env self4 args dest raster w1
            else
              { outcome := Outcome.verifyFailed, self := self3, writer := some w,
                errorMessage := "" }

end NitfExporter
end Nitf

namespace Nitf

/-! ## Observations used to state the properties -/

/-- The sixteen security fields that exist on both headers. -/
inductive SecurityField
  | classificationLevel
  | system
  | codewords
  | controlAndHandling
  | releasingInstructions
  | declassificationType
  | declassificationDate
  | declassificationExemption
  | downgrade
  | downgradeDate
  | authorityType
  | authority
  | classificationReason
  | securitySourceDate
  | securityControlNumber
  | classificationText
  deriving DecidableEq, Repr

/-- The security field a file header setter writes, with the string written;
`none` for the setters without a counterpart on the image header. -/
def FileHeaderCall.security : FileHeaderCall → Option (SecurityField × String)
  | FileHeaderCall.setFileBackgroundColor _ _ _ => none
  | FileHeaderCall.setFileSecurityClassification s => some (SecurityField.classificationLevel, s)
  | FileHeaderCall.setSecurityClassificationSys s => some (SecurityField.system, s)
  | FileHeaderCall.setCodeWords s => some (SecurityField.codewords, s)
  | FileHeaderCall.setControlAndHandling s => some (SecurityField.controlAndHandling, s)
  | FileHeaderCall.setReleasingInstructions s => some (SecurityField.releasingInstructions, s)
  | FileHeaderCall.setDeclassificationType s => some (SecurityField.declassificationType, s)
  | FileHeaderCall.setDeclassificationDate s => some (SecurityField.declassificationDate, s)
  | FileHeaderCall.setDeclassificationExemption s =>
    some (SecurityField.declassificationExemption, s)
  | FileHeaderCall.setDowngrade s => some (SecurityField.downgrade, s)
  | FileHeaderCall.setDowngradingDate s => some (SecurityField.downgradeDate, s)
  | FileHeaderCall.setClassificationAuthorityType s => some (SecurityField.authorityType, s)
  | FileHeaderCall.setClassificationAuthority s => some (SecurityField.authority, s)
  | FileHeaderCall.setClassificationReason s => some (SecurityField.classificationReason, s)
  | FileHeaderCall.setSecuritySourceDate s => some (SecurityField.securitySourceDate, s)
  | FileHeaderCall.setSecurityControlNumber s => some (SecurityField.securityControlNumber, s)
  | FileHeaderCall.setCopyNumber _ => none
  | FileHeaderCall.setNumberOfCopies _ => none
  | FileHeaderCall.setClassificationText s => some (SecurityField.classificationText, s)

/-- The security field an image header setter writes, with the string
written; `none` for the band setters. -/
def ImageHeaderCall.security : ImageHeaderCall → Option (SecurityField × String)
  | ImageHeaderCall.setNumberOfBands _ => none
  | ImageHeaderCall.setBandInfo _ _ => none
  | ImageHeaderCall.setRepresentation _ => none
  | ImageHeaderCall.setSecurityClassification s => some (SecurityField.classificationLevel, s)
  | ImageHeaderCall.setSecurityClassificationSystem s => some (SecurityField.system, s)
  | ImageHeaderCall.setCodewords s => some (SecurityField.codewords, s)
  | ImageHeaderCall.setControlAndHandling s => some (SecurityField.controlAndHandling, s)
  | ImageHeaderCall.setReleasingInstructions s => some (SecurityField.releasingInstructions, s)
  | ImageHeaderCall.setDeclassificationType s => some (SecurityField.declassificationType, s)
  | ImageHeaderCall.setDeclassificationDate s => some (SecurityField.declassificationDate, s)
  | ImageHeaderCall.setDeclassificationExempt s =>
    some (SecurityField.declassificationExemption, s)
  | ImageHeaderCall.setDowngrade s => some (SecurityField.downgrade, s)
  | ImageHeaderCall.setDowngradeDate s => some (SecurityField.downgradeDate, s)
  | ImageHeaderCall.setClassificationAuthorityType s => some (SecurityField.authorityType, s)
  | ImageHeaderCall.setClassificationAuthority s => some (SecurityField.authority, s)
  | ImageHeaderCall.setClassificationReason s => some (SecurityField.classificationReason, s)
  | ImageHeaderCall.setSecuritySourceDate s => some (SecurityField.securitySourceDate, s)
  | ImageHeaderCall.setSecurityControlNumber s => some (SecurityField.securityControlNumber, s)
  | ImageHeaderCall.setClassificationText s => some (SecurityField.classificationText, s)

/-- The string a security field holds after a sequence of writes: the one
written last, `none` when the field was never written. -/
def heldAfter (writes : List (Option (SecurityField × String))) (f : SecurityField) :
    Option String :=
  writes.foldl
    (fun held write =>
      match write with
      | some (g, s) => if g = f then some s else held
      | none => held)
    none

/-- The string set on a security field of a file header. -/
def heldByFileHeader (h : FileHeader) (f : SecurityField) : Option String :=
  heldAfter (h.map FileHeaderCall.security) f

/-- The string set on a security field of an image header. -/
def heldByImageHeader (h : ImageHeader) (f : SecurityField) : Option String :=
  heldAfter (h.map ImageHeaderCall.security) f

/-- The effective level in the words of the claim: the classification's
level, or the options widget's modified LEVEL value when the classification
is not valid for export and the widget is available. -/
def effectiveLevel (env : Environment) (self : NitfExporter) (args : PlugInArgList)
    (c : Classification) : String :=
  if env.isClassificationValidForExport c = false then
    match (NitfExporter.getExportOptionsWidget env self args).1 with
    | some w => w.getModifiedValue OptionsField.LEVEL
    | none => c.getLevel
  else
    c.getLevel

end Nitf

namespace Nitf

/-! ## Concrete inputs -/

/-- A classification at level secret. -/
def sampleClassification : Classification :=
  { getLevel := "S"
    getSystem := "US"
    getCodewords := ""
    getFileControl := ""
    getFileReleasing := ""
    getDeclassificationType := "DD"
    getDeclassificationDate := some { getFormattedUtc := fun _ => "20300101" }
    getDeclassificationExemption := ""
    getFileDowngrade := ""
    getDowngradeDate := none
    getAuthorityType := "O"
    getAuthority := "authority"
    getClassificationReason := "A"
    getSecuritySourceDate := none
    getSecurityControlNumber := "1"
    getFileCopyNumber := "00001"
    getFileNumberOfCopies := "00002"
    getDescription := "text" }

/-- An export descriptor at the size limit, three bands. -/
def sampleDescriptor : RasterFileDescriptor :=
  { getFilename := "out.ntf"
    getColumnCount := 204800
    getRowCount := 204800
    getBandCount := 3
    getOriginalBand := fun n => { getOriginalNumber := some n, getOnDiskNumber := some n } }

/-- A real-valued raster element carrying `sampleClassification`. -/
def sampleRaster : RasterElement :=
  { address := 1
    getDataDescriptor :=
      some { getDataType := some (EncodingType.other 0)
             getClassification := some sampleClassification } }

/-- A complex-valued raster element carrying `sampleClassification`. -/
def sampleComplexRaster : RasterElement :=
  { address := 1
    getDataDescriptor :=
      some { getDataType := some EncodingType.FLT8COMPLEX
             getClassification := some sampleClassification } }

/-- A layer showing `sampleRaster` in RGB mode. -/
def sampleLayer : RasterLayer :=
  { getDisplayMode := DisplayMode.RGB_MODE
    getDisplayedRasterElement := fun _ => some 1
    getDisplayedBand := fun ch =>
      match ch with
      | RasterChannelType.GRAY => { getOriginalNumber := none, getOnDiskNumber := none }
      | RasterChannelType.RED => { getOriginalNumber := some 0, getOnDiskNumber := some 0 }
      | RasterChannelType.GREEN => { getOriginalNumber := some 1, getOnDiskNumber := some 1 }
      | RasterChannelType.BLUE => { getOriginalNumber := some 2, getOnDiskNumber := some 2 } }

/-- A view whose primary raster element is `sampleRaster`. -/
def sampleView : View :=
  { asSpatialDataView :=
      some { getLayerList :=
               some { getPrimaryRasterElement := some 1
                      getLayer := fun _ => some sampleLayer }
             getBackgroundColor := { mRed := 10, mGreen := 20, mBlue := 30 } } }

/-- Batch arguments with the given `"Classification Must Be Valid"` value. -/
def sampleArgs (raster : RasterElement) (classificationMustBeValid : Bool) : PlugInArgList :=
  { progress := some []
    exportDescriptor := some sampleDescriptor
    exportItem := some raster
    view := some sampleView
    classificationMustBeValid := some classificationMustBeValid }

/-- A freshly created writer: both headers exist and nothing was called. -/
def sampleWriter : Writer :=
  { getFileHeader := some [], getImageHeader := some [], calls := [] }

/-- The writer `execute` leaves behind for a rejected raster: only the
listener calls and the file name were added, and the headers are untouched. -/
def rejectedWriter : Writer :=
  { getFileHeader := some []
    getImageHeader := some []
    calls := [WriterCall.addListener, WriterCall.setFilename "out.ntf",
      WriterCall.removeListener] }

/-- A widget whose every field reads `"U"`. -/
def sampleWidget : OptionsNitfExporter :=
  { getModifiedValue := fun _ => "U"
    isValid := fun m => (true, m) }

/-- An environment in which classifications are valid exactly when
`valid`, and both external stages succeed. -/
def sampleEnvironment (valid : Bool) : Environment :=
  { isClassificationValidForExport := fun _ => valid
    classificationErrorMessage := fun _ m => m
    newOptionsNitfExporter := fun _ => sampleWidget
    createWriter := some sampleWriter
    exportMetadata := true
    writerExecute := true
    constants :=
      { BAND_REPRESENTATIONS_RED := "R"
        BAND_REPRESENTATIONS_GREEN := "G"
        BAND_REPRESENTATIONS_BLUE := "B"
        REPRESENTATION_MULTI := "MULTI" } }

/-- An environment in which every classification is valid for export. -/
def validEnvironment : Environment := sampleEnvironment true

/-- An environment in which no classification is valid for export. -/
def invalidEnvironment : Environment := sampleEnvironment false

/-- A fresh exporter running in batch mode. -/
def batchExporter : NitfExporter :=
  { isBatch := true
    mpOptionsWidget := none
    mpRaster := none
    mpRasterLayer := none
    mpProgress := none
    mpDestination := none
    mbAborted := false }

/-- Batch arguments for the real-valued raster; the classification must be
valid. -/
def batchArgs : PlugInArgList := sampleArgs sampleRaster true

/-- Batch arguments for the real-valued raster; the classification need not
be valid. -/
def lenientArgs : PlugInArgList := sampleArgs sampleRaster false

/-- An exporter running interactively whose options widget exists. -/
def interactiveExporter : NitfExporter :=
  { isBatch := false
    mpOptionsWidget := some sampleWidget
    mpRaster := none
    mpRasterLayer := none
    mpProgress := none
    mpDestination := none
    mbAborted := false }

/-- Batch arguments for the complex-valued raster. -/
def complexArgs : PlugInArgList := sampleArgs sampleComplexRaster true

end Nitf

/-! ## Properties -/

/-- C1: for each module manager and every index `n`, `getPlugIn n` is non-NULL
exactly when `n < getTotalPlugIns`; Georeference has two plug-ins
(`GeoreferencePlugIn` at 0, `GcpGeoreference` at 1), the HDF sampler has one
(`SampleHdf4Importer` at 0) with `HDF4_SUPPORT` and none without it. -/
theorem moduleManager_getPlugIn_isSome_iff_lt_total :
    (∀ n : Nat, (Georeference.ModuleManager.getPlugIn n).isSome = true ↔
        n < Georeference.ModuleManager.getTotalPlugIns) ∧
    (∀ (hdf4 : Bool) (n : Nat),
        (PlugInSamplerHdf.ModuleManager.getPlugIn hdf4 n).isSome = true ↔
          n < PlugInSamplerHdf.ModuleManager.getTotalPlugIns hdf4) ∧
    Georeference.ModuleManager.getTotalPlugIns = 2 ∧
    Georeference.ModuleManager.getPlugIn 0 = some PlugIn.GeoreferencePlugIn ∧
    Georeference.ModuleManager.getPlugIn 1 = some PlugIn.GcpGeoreference ∧
    PlugInSamplerHdf.ModuleManager.getTotalPlugIns true = 1 ∧
    PlugInSamplerHdf.ModuleManager.getPlugIn true 0 = some PlugIn.SampleHdf4Importer ∧
    PlugInSamplerHdf.ModuleManager.getTotalPlugIns false = 0 ∧
    (∀ n : Nat, PlugInSamplerHdf.ModuleManager.getPlugIn false n = none) := by
  refine ⟨?_, ?_, rfl, rfl, rfl, rfl, rfl, rfl, ?_⟩
  · intro n
    unfold Georeference.ModuleManager.getTotalPlugIns
    match n with
    | 0 => simp [Georeference.ModuleManager.getPlugIn]
    | 1 => simp [Georeference.ModuleManager.getPlugIn]
    | k + 2 => simp [Georeference.ModuleManager.getPlugIn]
  · intro hdf4 n
    unfold PlugInSamplerHdf.ModuleManager.getTotalPlugIns
    cases hdf4 with
    | false => simp [PlugInSamplerHdf.ModuleManager.getPlugIn]
    | true =>
      match n with
      | 0 => simp [PlugInSamplerHdf.ModuleManager.getPlugIn]
      | k + 1 => simp [PlugInSamplerHdf.ModuleManager.getPlugIn]
  · intro n
    simp [PlugInSamplerHdf.ModuleManager.getPlugIn]

namespace Nitf
open NitfExporter

/-- The verdict of `validateExportDescriptor` on a descriptor over the limit. -/
theorem validateExportDescriptor_of_gt (d : RasterFileDescriptor) (errorMessage : String)
    (h : d.getColumnCount > 204800 ∨ d.getRowCount > 204800) :
    validateExportDescriptor (some d) errorMessage =
      (false, errorMessage ++
        "NITF export of more than 204,800 rows or columns is unsupported.\n") := by
  simp only [validateExportDescriptor]
  rw [if_pos h]

/-- The verdict of `validateExportDescriptor` on a descriptor within the limit. -/
theorem validateExportDescriptor_of_le (d : RasterFileDescriptor) (errorMessage : String)
    (h : ¬ (d.getColumnCount > 204800 ∨ d.getRowCount > 204800)) :
    validateExportDescriptor (some d) errorMessage = (true, errorMessage) := by
  simp only [validateExportDescriptor]
  rw [if_neg h]

/-- C2: for a non-NULL export descriptor `validateExportDescriptor` returns
true exactly when neither the column count nor the row count exceeds 204800,
and a rejection appends the "unsupported" text to the error message; 204800
by 204800 is accepted and 204801 in either dimension is rejected. -/
theorem validateExportDescriptor_true_iff_within_limit :
    (∀ (d : RasterFileDescriptor) (errorMessage : String),
        ((validateExportDescriptor (some d) errorMessage).1 = true ↔
          d.getColumnCount ≤ 204800 ∧ d.getRowCount ≤ 204800) ∧
        ((validateExportDescriptor (some d) errorMessage).1 = false →
          (validateExportDescriptor (some d) errorMessage).2 =
            errorMessage ++
              "NITF export of more than 204,800 rows or columns is unsupported.\n")) ∧
    (∀ (d : RasterFileDescriptor) (errorMessage : String),
        (d.getColumnCount = 204800 → d.getRowCount = 204800 →
          (validateExportDescriptor (some d) errorMessage).1 = true) ∧
        (d.getColumnCount = 204801 →
          (validateExportDescriptor (some d) errorMessage).1 = false) ∧
        (d.getRowCount = 204801 →
          (validateExportDescriptor (some d) errorMessage).1 = false)) := by
  refine ⟨?_, ?_⟩
  · intro d errorMessage
    by_cases h : d.getColumnCount > 204800 ∨ d.getRowCount > 204800
    · rw [validateExportDescriptor_of_gt d errorMessage h]
      refine ⟨⟨fun hf => ?_, fun hle => ?_⟩, fun _ => rfl⟩
      · cases hf
      · omega
    · rw [validateExportDescriptor_of_le d errorMessage h]
      refine ⟨⟨fun _ => ?_, fun _ => rfl⟩, fun hf => ?_⟩
      · omega
      · cases hf
  · intro d errorMessage
    refine ⟨?_, ?_, ?_⟩
    · intro hc hr
      rw [validateExportDescriptor_of_le d errorMessage (by omega)]
    · intro hc
      rw [validateExportDescriptor_of_gt d errorMessage (by omega)]
    · intro hr
      rw [validateExportDescriptor_of_gt d errorMessage (by omega)]

/-- When `exportClassification` returns true it ended in `writeMarkings`, on
markings whose level is the effective level. -/
theorem exportClassification_eq_writeMarkings (env : Environment) (self : NitfExporter)
    (pArgList : Option PlugInArgList) (pClassification : Option Classification)
    (pFileHeader : Option FileHeader) (pImageHeader : Option ImageHeader)
    (errorMessage : String)
    (h : (exportClassification env self pArgList pClassification pFileHeader pImageHeader
      errorMessage).outcome.value = true) :
    ∃ args c fh ih m self1, pArgList = some args ∧ pClassification = some c ∧
      pFileHeader = some fh ∧ pImageHeader = some ih ∧
      m.level = effectiveLevel env self args c ∧
      exportClassification env self pArgList pClassification pFileHeader pImageHeader
        errorMessage = writeMarkings m self1 fh ih errorMessage := by
  cases pArgList with
  | none => simp [exportClassification, Outcome.value] at h
  | some args =>
    cases pClassification with
    | none => simp [exportClassification, Outcome.value] at h
    | some c =>
      cases pFileHeader with
      | none => simp [exportClassification, Outcome.value] at h
      | some fh =>
        cases pImageHeader with
        | none => simp [exportClassification, Outcome.value] at h
        | some ih =>
          refine ⟨args, c, fh, ih, ?_⟩
          by_cases hv : env.isClassificationValidForExport c = false
          · cases hw : getExportOptionsWidget env self args with
            | mk w self1 =>
              cases w with
              | none =>
                by_cases hb : self1.isBatch = true
                · cases hm : args.classificationMustBeValid with
                  | none =>
                    simp [exportClassification, hv, hw, hb, hm, Outcome.value] at h
                  | some b =>
                    cases b with
                    | true =>
                      simp [exportClassification, hv, hw, hb, hm, Outcome.value] at h
                    | false =>
                      refine ⟨initialMarkings c, self1, rfl, rfl, rfl, rfl, ?_, ?_⟩
                      · simp [effectiveLevel, hv, hw, initialMarkings]
                      · simp [exportClassification, hv, hw, hb, hm]
                · simp [exportClassification, hv, hw, hb, Outcome.value] at h
              | some w =>
                refine ⟨modifiedMarkings w, self1, rfl, rfl, rfl, rfl, ?_, ?_⟩
                · simp [effectiveLevel, hv, hw, modifiedMarkings]
                · simp [exportClassification, hv, hw]
          · refine ⟨initialMarkings c, self, rfl, rfl, rfl, rfl, ?_, ?_⟩
            · simp [effectiveLevel, hv, initialMarkings]
            · simp [exportClassification, hv]

/-- The headers `writeMarkings` leaves when the level is not `"U"`. -/
theorem writeMarkings_of_ne (m : Markings) (self : NitfExporter) (fh : FileHeader)
    (ih : ImageHeader) (errorMessage : String) (h : m.level ≠ "U") :
    (writeMarkings m self fh ih errorMessage).fileHeader =
        some (fh ++ fileHeaderMarkingCalls m) ∧
      (writeMarkings m self fh ih errorMessage).imageHeader =
        some (ih ++ imageHeaderMarkingCalls m) := by
  unfold writeMarkings
  rw [if_pos h]
  exact ⟨rfl, rfl⟩

/-- The headers `writeMarkings` leaves when the level is `"U"`. -/
theorem writeMarkings_of_eq (m : Markings) (self : NitfExporter) (fh : FileHeader)
    (ih : ImageHeader) (errorMessage : String) (h : m.level = "U") :
    (writeMarkings m self fh ih errorMessage).fileHeader = some fh ∧
      (writeMarkings m self fh ih errorMessage).imageHeader = some ih := by
  unfold writeMarkings
  rw [if_neg (not_not.mpr h)]
  exact ⟨rfl, rfl⟩

/-- After the image header marking calls every security field holds the
string of the matching marking, whatever was written before. -/
theorem heldByImageHeader_append_markings (ih : ImageHeader) (m : Markings)
    (f : SecurityField) :
    heldByImageHeader (ih ++ imageHeaderMarkingCalls m) f =
      heldAfter ((imageHeaderMarkingCalls m).map ImageHeaderCall.security) f := by
  unfold heldByImageHeader heldAfter
  rw [List.map_append, List.foldl_append]
  cases f <;> simp [imageHeaderMarkingCalls, ImageHeaderCall.security]

/-- After the file header marking calls every security field holds the string
of the matching marking, whatever was written before. -/
theorem heldByFileHeader_append_markings (fh : FileHeader) (m : Markings)
    (f : SecurityField) :
    heldByFileHeader (fh ++ fileHeaderMarkingCalls m) f =
      heldAfter ((imageHeaderMarkingCalls m).map ImageHeaderCall.security) f := by
  unfold heldByFileHeader heldAfter
  rw [List.map_append, List.foldl_append]
  cases f <;>
    simp [fileHeaderMarkingCalls, FileHeaderCall.security, imageHeaderMarkingCalls,
      ImageHeaderCall.security]

/-- Every security field is written by the image header marking calls. -/
theorem heldAfter_markings_isSome (m : Markings) (f : SecurityField) :
    ∃ s, heldAfter ((imageHeaderMarkingCalls m).map ImageHeaderCall.security) f = some s := by
  unfold heldAfter
  cases f <;> simp [imageHeaderMarkingCalls, ImageHeaderCall.security]

/-- The file header marking calls write every security field with the string
the image header marking calls write to it. -/
theorem heldAfter_fileMarkings (m : Markings) (f : SecurityField) :
    heldAfter ((fileHeaderMarkingCalls m).map FileHeaderCall.security) f =
      heldAfter ((imageHeaderMarkingCalls m).map ImageHeaderCall.security) f := by
  unfold heldAfter
  cases f <;>
    simp [fileHeaderMarkingCalls, FileHeaderCall.security, imageHeaderMarkingCalls,
      ImageHeaderCall.security]

/-- The marking calls leave the level in the classification level field. -/
theorem heldAfter_markings_level (m : Markings) :
    heldAfter ((imageHeaderMarkingCalls m).map ImageHeaderCall.security)
      SecurityField.classificationLevel = some m.level := by
  unfold heldAfter
  simp [imageHeaderMarkingCalls, ImageHeaderCall.security]

/-- C5: whenever `exportClassification` returns true, setters are called on
the file header, and on the image header, exactly when the effective level is
not `"U"`. In that case the calls write every one of the sixteen security
fields of each header (and the copy number and number of copies of the file
header), and the classification level field of both headers then holds the
effective level; when the effective level is `"U"` no setter is called and
both headers are left as they were. -/
theorem exportClassification_marks_iff_level_ne_U (env : Environment) (self : NitfExporter)
    (pArgList : Option PlugInArgList) (pClassification : Option Classification)
    (pFileHeader : Option FileHeader) (pImageHeader : Option ImageHeader)
    (errorMessage : String)
    (h : (exportClassification env self pArgList pClassification pFileHeader pImageHeader
      errorMessage).outcome.value = true) :
    ∃ args c fileCalls imageCalls, pArgList = some args ∧ pClassification = some c ∧
      (exportClassification env self pArgList pClassification pFileHeader pImageHeader
        errorMessage).fileHeader = pFileHeader.map (fun fh => fh ++ fileCalls) ∧
      (exportClassification env self pArgList pClassification pFileHeader pImageHeader
        errorMessage).imageHeader = pImageHeader.map (fun ih => ih ++ imageCalls) ∧
      (fileCalls ≠ [] ↔ effectiveLevel env self args c ≠ "U") ∧
      (imageCalls ≠ [] ↔ effectiveLevel env self args c ≠ "U") ∧
      (∀ call ∈ fileCalls, call.security.isSome = true ∨
        (∃ s, call = FileHeaderCall.setCopyNumber s) ∨
        (∃ s, call = FileHeaderCall.setNumberOfCopies s)) ∧
      (∀ call ∈ imageCalls, call.security.isSome = true) ∧
      ((exportClassification env self pArgList pClassification pFileHeader pImageHeader
          errorMessage).fileHeader ≠ pFileHeader ↔ effectiveLevel env self args c ≠ "U") ∧
      ((exportClassification env self pArgList pClassification pFileHeader pImageHeader
          errorMessage).imageHeader ≠ pImageHeader ↔ effectiveLevel env self args c ≠ "U") ∧
      (effectiveLevel env self args c = "U" →
        (exportClassification env self pArgList pClassification pFileHeader pImageHeader
          errorMessage).fileHeader = pFileHeader ∧
        (exportClassification env self pArgList pClassification pFileHeader pImageHeader
          errorMessage).imageHeader = pImageHeader) ∧
      (effectiveLevel env self args c ≠ "U" →
        (∀ f : SecurityField,
          (heldAfter (fileCalls.map FileHeaderCall.security) f).isSome = true ∧
          (heldAfter (imageCalls.map ImageHeaderCall.security) f).isSome = true) ∧
        heldAfter (fileCalls.map FileHeaderCall.security) SecurityField.classificationLevel =
          some (effectiveLevel env self args c) ∧
        heldAfter (imageCalls.map ImageHeaderCall.security) SecurityField.classificationLevel =
          some (effectiveLevel env self args c) ∧
        (∃ s, FileHeaderCall.setCopyNumber s ∈ fileCalls) ∧
        (∃ s, FileHeaderCall.setNumberOfCopies s ∈ fileCalls) ∧
        fileCalls.length = 18 ∧ imageCalls.length = 16 ∧
        ∃ fh1 ih1,
          (exportClassification env self pArgList pClassification pFileHeader pImageHeader
            errorMessage).fileHeader = some fh1 ∧
          (exportClassification env self pArgList pClassification pFileHeader pImageHeader
            errorMessage).imageHeader = some ih1 ∧
          ∀ f : SecurityField,
            (heldByFileHeader fh1 f).isSome = true ∧
            (heldByImageHeader ih1 f).isSome = true ∧
            (f = SecurityField.classificationLevel →
              heldByFileHeader fh1 f = some (effectiveLevel env self args c) ∧
              heldByImageHeader ih1 f = some (effectiveLevel env self args c))) := by
  obtain ⟨args, c, fh, ih, m, self1, ha, hc, hfh, hih, hm, hr⟩ :=
    exportClassification_eq_writeMarkings env self pArgList pClassification pFileHeader
      pImageHeader errorMessage h
  rw [hr]
  subst hfh hih
  by_cases hl : m.level = "U"
  · obtain ⟨h1, h2⟩ := writeMarkings_of_eq m self1 fh ih errorMessage hl
    refine ⟨args, c, [], [], ha, hc, ?_, ?_, ?_, ?_, ?_, ?_, ?_, ?_, ?_, ?_⟩
    · simp [h1]
    · simp [h2]
    · simp [← hm, hl]
    · simp [← hm, hl]
    · intro call hcall
      cases hcall
    · intro call hcall
      cases hcall
    · simp [h1, ← hm, hl]
    · simp [h2, ← hm, hl]
    · intro _
      exact ⟨h1, h2⟩
    · intro hne
      exact absurd (hm.symm.trans hl) hne
  · obtain ⟨h1, h2⟩ := writeMarkings_of_ne m self1 fh ih errorMessage hl
    refine ⟨args, c, fileHeaderMarkingCalls m, imageHeaderMarkingCalls m, ha, hc, ?_, ?_,
      ?_, ?_, ?_, ?_, ?_, ?_, ?_, ?_⟩
    · simp [h1]
    · simp [h2]
    · simp [← hm, hl, fileHeaderMarkingCalls]
    · simp [← hm, hl, imageHeaderMarkingCalls]
    · intro call hcall
      simp only [fileHeaderMarkingCalls, List.mem_cons, List.mem_singleton,
        List.not_mem_nil, or_false] at hcall
      rcases hcall with hx | hx | hx | hx | hx | hx | hx | hx | hx | hx | hx | hx | hx | hx |
        hx | hx | hx | hx <;> subst hx <;> simp [FileHeaderCall.security]
    · intro call hcall
      simp only [imageHeaderMarkingCalls, List.mem_cons, List.mem_singleton,
        List.not_mem_nil, or_false] at hcall
      rcases hcall with hx | hx | hx | hx | hx | hx | hx | hx | hx | hx | hx | hx | hx | hx |
        hx | hx <;> subst hx <;> simp [ImageHeaderCall.security]
    · simp [h1, ← hm, hl, fileHeaderMarkingCalls]
    · simp [h2, ← hm, hl, imageHeaderMarkingCalls]
    · intro hu
      exact absurd (hm.trans hu) hl
    · intro _
      have hsome : ∀ f : SecurityField,
          (heldAfter ((imageHeaderMarkingCalls m).map ImageHeaderCall.security) f).isSome =
            true := by
        intro f
        obtain ⟨s, hs⟩ := heldAfter_markings_isSome m f
        rw [hs]
        rfl
      refine ⟨?_, ?_, ?_, ?_, ?_, rfl, rfl, fh ++ fileHeaderMarkingCalls m,
        ih ++ imageHeaderMarkingCalls m, h1, h2, ?_⟩
      · intro f
        refine ⟨?_, hsome f⟩
        rw [heldAfter_fileMarkings]
        exact hsome f
      · rw [heldAfter_fileMarkings, heldAfter_markings_level, hm]
      · rw [heldAfter_markings_level, hm]
      · exact ⟨m.copyNumber, by simp [fileHeaderMarkingCalls]⟩
      · exact ⟨m.numberOfCopies, by simp [fileHeaderMarkingCalls]⟩
      · intro f
        refine ⟨?_, ?_, ?_⟩
        · rw [heldByFileHeader_append_markings]
          exact hsome f
        · rw [heldByImageHeader_append_markings]
          exact hsome f
        · intro hf
          subst hf
          rw [heldByFileHeader_append_markings, heldByImageHeader_append_markings,
            heldAfter_markings_level, hm]
          exact ⟨rfl, rfl⟩

/-- C6: whenever `exportClassification` returns true with an effective level
other than `"U"`, the image header received its sixteen security setters with
the strings given to the matching file header setters, so that each of the
sixteen security fields of the image header holds the string that was set on
the same field of the file header. -/
theorem exportClassification_image_markings_eq_file_markings (env : Environment)
    (self : NitfExporter) (args : PlugInArgList) (c : Classification)
    (pFileHeader : Option FileHeader) (pImageHeader : Option ImageHeader)
    (errorMessage : String)
    (h : (exportClassification env self (some args) (some c) pFileHeader pImageHeader
      errorMessage).outcome.value = true)
    (hl : effectiveLevel env self args c ≠ "U") :
    ∃ fh0 ih0 fh ih m, pFileHeader = some fh0 ∧ pImageHeader = some ih0 ∧
      (exportClassification env self (some args) (some c) pFileHeader pImageHeader
        errorMessage).fileHeader = some fh ∧
      (exportClassification env self (some args) (some c) pFileHeader pImageHeader
        errorMessage).imageHeader = some ih ∧
      fh = fh0 ++ fileHeaderMarkingCalls m ∧
      ih = ih0 ++ imageHeaderMarkingCalls m ∧
      (imageHeaderMarkingCalls m).length = 16 ∧
      ∀ f : SecurityField, ∃ s, heldByImageHeader ih f = some s ∧
        heldByFileHeader fh f = some s := by
  obtain ⟨args1, c1, fh0, ih0, m, self1, ha, hc, hfh, hih, hm, hr⟩ :=
    exportClassification_eq_writeMarkings env self (some args) (some c) pFileHeader
      pImageHeader errorMessage h
  cases ha
  cases hc
  have hne : m.level ≠ "U" := by
    rw [hm]
    exact hl
  obtain ⟨h1, h2⟩ := writeMarkings_of_ne m self1 fh0 ih0 errorMessage hne
  refine ⟨fh0, ih0, fh0 ++ fileHeaderMarkingCalls m, ih0 ++ imageHeaderMarkingCalls m, m,
    hfh, hih, ?_, ?_, rfl, rfl, rfl, ?_⟩
  · rw [hr]
    exact h1
  · rw [hr]
    exact h2
  · intro f
    obtain ⟨s, hs⟩ := heldAfter_markings_isSome m f
    refine ⟨s, ?_, ?_⟩
    · rw [heldByImageHeader_append_markings]
      exact hs
    · rw [heldByFileHeader_append_markings]
      exact hs

/-- C7: in batch mode, with an invalid classification and the argument
`"Classification Must Be Valid"` present, `exportClassification` returns false
exactly when the argument is true; it then sets the error message to
`"Classification is not valid."` and leaves both headers alone. When the
argument is false it returns true, leaves the error message alone and, unless
the level is `"U"`, passes the values read from the getters of the
classification itself to the eighteen file header setters and the sixteen
image header setters (a date that is NULL is passed as the empty string). -/
theorem exportClassification_batch_invalid (env : Environment) (self : NitfExporter)
    (args : PlugInArgList) (c : Classification) (fh : FileHeader) (ih : ImageHeader)
    (errorMessage : String) (classificationMustBeValid : Bool)
    (hbatch : self.isBatch = true)
    (hinvalid : env.isClassificationValidForExport c = false)
    (harg : args.classificationMustBeValid = some classificationMustBeValid) :
    ((exportClassification env self (some args) (some c) (some fh) (some ih)
        errorMessage).outcome.value = false ↔ classificationMustBeValid = true) ∧
    (classificationMustBeValid = true →
      (exportClassification env self (some args) (some c) (some fh) (some ih)
        errorMessage).outcome = Outcome.returned false ∧
      (exportClassification env self (some args) (some c) (some fh) (some ih)
        errorMessage).errorMessage = "Classification is not valid." ∧
      (exportClassification env self (some args) (some c) (some fh) (some ih)
        errorMessage).fileHeader = some fh ∧
      (exportClassification env self (some args) (some c) (some fh) (some ih)
        errorMessage).imageHeader = some ih) ∧
    (classificationMustBeValid = false →
      (exportClassification env self (some args) (some c) (some fh) (some ih)
        errorMessage).outcome = Outcome.returned true ∧
      (exportClassification env self (some args) (some c) (some fh) (some ih)
        errorMessage).errorMessage = errorMessage ∧
      (exportClassification env self (some args) (some c) (some fh) (some ih)
        errorMessage).fileHeader =
          (if c.getLevel ≠ "U" then
            some (fh ++
              [ FileHeaderCall.setFileSecurityClassification c.getLevel,
                FileHeaderCall.setSecurityClassificationSys c.getSystem,
                FileHeaderCall.setCodeWords c.getCodewords,
                FileHeaderCall.setControlAndHandling c.getFileControl,
                FileHeaderCall.setReleasingInstructions c.getFileReleasing,
                FileHeaderCall.setDeclassificationType c.getDeclassificationType,
                FileHeaderCall.setDeclassificationDate
                  ((c.getDeclassificationDate.map fun d => d.getFormattedUtc "%Y%m%d").getD ""),
                FileHeaderCall.setDeclassificationExemption c.getDeclassificationExemption,
                FileHeaderCall.setDowngrade c.getFileDowngrade,
                FileHeaderCall.setDowngradingDate
                  ((c.getDowngradeDate.map fun d => d.getFormattedUtc "%Y%m%d").getD ""),
                FileHeaderCall.setClassificationAuthorityType c.getAuthorityType,
                FileHeaderCall.setClassificationAuthority c.getAuthority,
                FileHeaderCall.setClassificationReason c.getClassificationReason,
                FileHeaderCall.setSecuritySourceDate
                  ((c.getSecuritySourceDate.map fun d => d.getFormattedUtc "%Y%m%d").getD ""),
                FileHeaderCall.setSecurityControlNumber c.getSecurityControlNumber,
                FileHeaderCall.setCopyNumber c.getFileCopyNumber,
                FileHeaderCall.setNumberOfCopies c.getFileNumberOfCopies,
                FileHeaderCall.setClassificationText c.getDescription ])
          else some fh) ∧
      (exportClassification env self (some args) (some c) (some fh) (some ih)
        errorMessage).imageHeader =
          (if c.getLevel ≠ "U" then
            some (ih ++
              [ ImageHeaderCall.setSecurityClassification c.getLevel,
                ImageHeaderCall.setSecurityClassificationSystem c.getSystem,
                ImageHeaderCall.setCodewords c.getCodewords,
                ImageHeaderCall.setControlAndHandling c.getFileControl,
                ImageHeaderCall.setReleasingInstructions c.getFileReleasing,
                ImageHeaderCall.setDeclassificationType c.getDeclassificationType,
                ImageHeaderCall.setDeclassificationDate
                  ((c.getDeclassificationDate.map fun d => d.getFormattedUtc "%Y%m%d").getD ""),
                ImageHeaderCall.setDeclassificationExempt c.getDeclassificationExemption,
                ImageHeaderCall.setDowngrade c.getFileDowngrade,
                ImageHeaderCall.setDowngradeDate
                  ((c.getDowngradeDate.map fun d => d.getFormattedUtc "%Y%m%d").getD ""),
                ImageHeaderCall.setClassificationAuthorityType c.getAuthorityType,
                ImageHeaderCall.setClassificationAuthority c.getAuthority,
                ImageHeaderCall.setClassificationReason c.getClassificationReason,
                ImageHeaderCall.setSecuritySourceDate
                  ((c.getSecuritySourceDate.map fun d => d.getFormattedUtc "%Y%m%d").getD ""),
                ImageHeaderCall.setSecurityControlNumber c.getSecurityControlNumber,
                ImageHeaderCall.setClassificationText c.getDescription ])
          else some ih)) := by
  have hw : getExportOptionsWidget env self args = (none, self) := by
    simp [getExportOptionsWidget, hbatch]
  cases classificationMustBeValid with
  | true =>
    have hr : exportClassification env self (some args) (some c) (some fh) (some ih)
        errorMessage =
        { outcome := Outcome.returned false, self := self, fileHeader := some fh,
          imageHeader := some ih, errorMessage := "Classification is not valid." } := by
      simp [exportClassification, hinvalid, hw, hbatch, harg]
    rw [hr]
    simp [Outcome.value]
  | false =>
    have hr : exportClassification env self (some args) (some c) (some fh) (some ih)
        errorMessage = writeMarkings (initialMarkings c) self fh ih errorMessage := by
      simp [exportClassification, hinvalid, hw, hbatch, harg]
    have hdate : ∀ pDateTime : Option DateTime,
        formatDate pDateTime =
          (pDateTime.map fun d => d.getFormattedUtc "%Y%m%d").getD "" := by
      intro pDateTime
      cases pDateTime <;> rfl
    rw [hr]
    by_cases hl : c.getLevel = "U"
    · simp [writeMarkings, initialMarkings, hl, Outcome.value]
    · simp [writeMarkings, initialMarkings, hl, Outcome.value, fileHeaderMarkingCalls,
        imageHeaderMarkingCalls, hdate]

/-- C8: in batch mode, with an argument list carrying
`"Classification Must Be Valid"`, `validate` never returns `VALIDATE_INFO`; it
returns `VALIDATE_SUCCESS` exactly when the export descriptor exists with at
most 204800 rows and columns and either the argument is false or the raster
element, its data descriptor and its classification exist and the
classification is valid for export; otherwise it returns `VALIDATE_FAILURE`. -/
theorem validate_batch (env : Environment) (self : NitfExporter) (args : PlugInArgList)
    (errorMessage : String) (classificationMustBeValid : Bool)
    (hbatch : self.isBatch = true)
    (harg : args.classificationMustBeValid = some classificationMustBeValid) :
    (validate env self (some args) errorMessage).1 ≠ ValidationResultType.VALIDATE_INFO ∧
    ((validate env self (some args) errorMessage).1 = ValidationResultType.VALIDATE_SUCCESS ↔
      (∃ d, args.exportDescriptor = some d ∧ d.getColumnCount ≤ 204800 ∧
        d.getRowCount ≤ 204800) ∧
      (classificationMustBeValid = false ∨
        ∃ pRasterElement pDataDescriptor pClassification,
          args.exportItem = some pRasterElement ∧
          pRasterElement.getDataDescriptor = some pDataDescriptor ∧
          pDataDescriptor.getClassification = some pClassification ∧
          env.isClassificationValidForExport pClassification = true)) ∧
    ((validate env self (some args) errorMessage).1 ≠ ValidationResultType.VALIDATE_SUCCESS →
      (validate env self (some args) errorMessage).1 =
        ValidationResultType.VALIDATE_FAILURE) := by
  have hw : getExportOptionsWidget env self args = (none, self) := by
    simp [getExportOptionsWidget, hbatch]
  cases hd : args.exportDescriptor with
  | none =>
    simp [validate, hd, validateExportDescriptor]
  | some d =>
    by_cases hgt : d.getColumnCount > 204800 ∨ d.getRowCount > 204800
    · have hle : ¬ (d.getColumnCount ≤ 204800 ∧ d.getRowCount ≤ 204800) := by omega
      simp [validate, hd, validateExportDescriptor_of_gt d errorMessage hgt, hle]
    · have hle : d.getColumnCount ≤ 204800 ∧ d.getRowCount ≤ 204800 := by omega
      cases classificationMustBeValid with
      | false =>
        simp [validate, hd, validateExportDescriptor_of_le d errorMessage hgt, hw, hbatch,
          harg, hle]
      | true =>
        cases hi : args.exportItem with
        | none =>
          simp [validate, hd, validateExportDescriptor_of_le d errorMessage hgt, hw, hbatch,
            harg, hle, hi]
        | some pRasterElement =>
          cases hdd : pRasterElement.getDataDescriptor with
          | none =>
            simp [validate, hd, validateExportDescriptor_of_le d errorMessage hgt, hw,
              hbatch, harg, hle, hi, hdd]
          | some pDataDescriptor =>
            cases hc : pDataDescriptor.getClassification with
            | none =>
              simp [validate, hd, validateExportDescriptor_of_le d errorMessage hgt, hw,
                hbatch, harg, hle, hi, hdd, hc]
            | some pClassification =>
              by_cases hv : env.isClassificationValidForExport pClassification = false
              · simp [validate, hd, validateExportDescriptor_of_le d errorMessage hgt, hw,
                  hbatch, harg, hle, hi, hdd, hc, hv]
              · have hv1 : env.isClassificationValidForExport pClassification = true := by
                  simpa using hv
                simp [validate, hd, validateExportDescriptor_of_le d errorMessage hgt, hw,
                  hbatch, harg, hle, hi, hdd, hc, hv1]

/-- The widget `getExportOptionsWidget` returns and the batch flag it leaves
depend only on the batch flag and the widget held by the exporter. -/
theorem getExportOptionsWidget_congr (env : Environment) (self self1 : NitfExporter)
    (args : PlugInArgList) (hb : self.isBatch = self1.isBatch)
    (hw : self.mpOptionsWidget = self1.mpOptionsWidget) :
    (getExportOptionsWidget env self args).1 = (getExportOptionsWidget env self1 args).1 ∧
      (getExportOptionsWidget env self args).2.isBatch =
        (getExportOptionsWidget env self1 args).2.isBatch := by
  unfold getExportOptionsWidget
  rw [← hb, ← hw]
  by_cases hbatch : self.isBatch = true
  · rw [if_pos hbatch, if_pos hbatch]
    exact ⟨rfl, hb⟩
  · rw [if_neg hbatch, if_neg hbatch]
    cases self.mpOptionsWidget with
    | some w => exact ⟨rfl, hb⟩
    | none =>
      cases args.exportItem with
      | none => exact ⟨rfl, hb⟩
      | some pRasterElement =>
        dsimp only
        cases pRasterElement.getDataDescriptor with
        | none => exact ⟨rfl, hb⟩
        | some pDataDescriptor =>
          dsimp only
          cases pDataDescriptor.getClassification with
          | none => exact ⟨rfl, hb⟩
          | some pClassification => exact ⟨rfl, rfl⟩

/-- The outcome of `writeMarkings` is always a returned true. -/
theorem writeMarkings_outcome (m : Markings) (self : NitfExporter) (fh : FileHeader)
    (ih : ImageHeader) (errorMessage : String) :
    (writeMarkings m self fh ih errorMessage).outcome = Outcome.returned true := by
  unfold writeMarkings
  split <;> rfl

/-- The outcome of `exportClassification` does not depend on what the headers
hold, on the incoming error message, or on any member of the exporter other
than the batch flag and the options widget. -/
theorem exportClassification_outcome_congr (env : Environment) (self self1 : NitfExporter)
    (pArgList : Option PlugInArgList) (pClassification : Option Classification)
    (pFileHeader pFileHeader1 : Option FileHeader)
    (pImageHeader pImageHeader1 : Option ImageHeader) (errorMessage errorMessage1 : String)
    (hb : self.isBatch = self1.isBatch)
    (hw : self.mpOptionsWidget = self1.mpOptionsWidget)
    (hf : pFileHeader.isSome = pFileHeader1.isSome)
    (hi : pImageHeader.isSome = pImageHeader1.isSome) :
    (exportClassification env self pArgList pClassification pFileHeader pImageHeader
        errorMessage).outcome =
      (exportClassification env self1 pArgList pClassification pFileHeader1 pImageHeader1
        errorMessage1).outcome := by
  cases pArgList with
  | none => simp [exportClassification]
  | some args =>
    cases pClassification with
    | none => simp [exportClassification]
    | some c =>
      cases pFileHeader with
      | none =>
        cases pFileHeader1 with
        | none => simp [exportClassification]
        | some fh1 => simp at hf
      | some fh =>
        cases pFileHeader1 with
        | none => simp at hf
        | some fh1 =>
          cases pImageHeader with
          | none =>
            cases pImageHeader1 with
            | none => simp [exportClassification]
            | some ih1 => simp at hi
          | some ih =>
            cases pImageHeader1 with
            | none => simp at hi
            | some ih1 =>
              obtain ⟨h1, h2⟩ := getExportOptionsWidget_congr env self self1 args hb hw
              by_cases hv : env.isClassificationValidForExport c = false
              · cases hx : getExportOptionsWidget env self args with
                | mk wx sx =>
                  cases hy : getExportOptionsWidget env self1 args with
                  | mk wy sy =>
                    rw [hx, hy] at h1 h2
                    simp only at h1 h2
                    subst h1
                    cases wx with
                    | some wdg =>
                      simp [exportClassification, hv, hx, hy, writeMarkings_outcome]
                    | none =>
                      by_cases hbx : sx.isBatch = true
                      · have hby : sy.isBatch = true := by rw [← h2]; exact hbx
                        cases hm : args.classificationMustBeValid with
                        | none => simp [exportClassification, hv, hx, hy, hbx, hby, hm]
                        | some b =>
                          cases b with
                          | true => simp [exportClassification, hv, hx, hy, hbx, hby, hm]
                          | false =>
                            simp [exportClassification, hv, hx, hy, hbx, hby, hm,
                              writeMarkings_outcome]
                      · have hby : ¬ sy.isBatch = true := by rw [← h2]; exact hbx
                        simp [exportClassification, hv, hx, hy, hbx, hby]
              · simp [exportClassification, hv, writeMarkings_outcome]

/-- `setBandRepresentation` never makes the image header appear or vanish. -/
theorem setBandRepresentation_isSome (self : NitfExporter) (eColor : RasterChannelType)
    (representation : String) (pImageHeader : Option ImageHeader) :
    (setBandRepresentation self eColor representation pImageHeader).2.isSome =
      pImageHeader.isSome := by
  unfold setBandRepresentation
  split
  · split
    · split
      · split <;> rfl
      · rfl
    · rfl
  · rfl

/-- What `exportView` preserves: the batch flag, the options widget, and the
presence of both headers. -/
theorem exportView_preserves (env : Environment) (self : NitfExporter) (args : PlugInArgList)
    (dest : RasterFileDescriptor) (pFileHeader : Option FileHeader)
    (pImageHeader : Option ImageHeader) :
    (exportView env self args dest pFileHeader pImageHeader).self.isBatch = self.isBatch ∧
    (exportView env self args dest pFileHeader pImageHeader).self.mpOptionsWidget =
      self.mpOptionsWidget ∧
    (exportView env self args dest pFileHeader pImageHeader).fileHeader.isSome =
      pFileHeader.isSome ∧
    (exportView env self args dest pFileHeader pImageHeader).imageHeader.isSome =
      pImageHeader.isSome := by
  unfold exportView
  split
  · exact ⟨rfl, rfl, rfl, rfl⟩
  · split
    · exact ⟨rfl, rfl, rfl, rfl⟩
    · split
      · simp only
        split
        · refine ⟨rfl, rfl, ?_, ?_⟩ <;> simp
        · split
          · refine ⟨rfl, rfl, ?_, ?_⟩
            · simp
            · simp [setBandRepresentation_isSome]
          · refine ⟨rfl, rfl, ?_, ?_⟩ <;> simp
      · exact ⟨rfl, rfl, rfl, rfl⟩

/-- The `VERIFY` on the raster layer passes when the layer list of the view
has a raster layer for the exported element. -/
theorem exportView_verified (env : Environment) (self : NitfExporter) (args : PlugInArgList)
    (dest : RasterFileDescriptor) (pFileHeader : Option FileHeader)
    (pImageHeader : Option ImageHeader)
    (hlayer : ∀ pView pLayerList, args.view.bind View.asSpatialDataView = some pView →
      pView.getLayerList = some pLayerList →
      pLayerList.getPrimaryRasterElement = self.mpRaster.map RasterElement.address →
      (pLayerList.getLayer (self.mpRaster.map RasterElement.address)).isSome = true) :
    (exportView env self args dest pFileHeader pImageHeader).verified = true := by
  unfold exportView
  split
  · rfl
  · next pView hview =>
    split
    · rfl
    · next pLayerList hlist =>
      split
      · next hprimary =>
        have hsome := hlayer pView pLayerList hview hlist hprimary
        simp only
        split
        · next hnone =>
          rw [hnone] at hsome
          cases hsome
        · split <;> rfl
      · rfl

/-- `isComplex` is false exactly for the data types other than the two
complex ones. -/
theorem isComplex_eq_false_iff (dataType : EncodingType) :
    isComplex dataType = false ↔
      dataType ≠ EncodingType.INT4SCOMPLEX ∧ dataType ≠ EncodingType.FLT8COMPLEX := by
  simp [isComplex]

/-- The stages of `execute` return, and return true exactly when all five
succeed, provided the data type is available and the raster layer `VERIFY`
passes. -/
theorem executeStages_outcome (env : Environment) (self : NitfExporter) (args : PlugInArgList)
    (dest : RasterFileDescriptor) (raster : RasterElement) (w : Writer)
    (dataType : EncodingType)
    (hdd : raster.getDataDescriptor.bind DataDescriptor.getDataType = some dataType)
    (hverified :
      (exportView env self args dest w.getFileHeader w.getImageHeader).verified = true) :
    ∃ status, (executeStages env self args dest raster w).outcome = Outcome.returned status ∧
      (status = true ↔
        isComplex dataType = false ∧
        (dest.getColumnCount ≤ 204800 ∧ dest.getRowCount ≤ 204800) ∧
        env.exportMetadata = true ∧
        (exportClassification env self (some args)
          (raster.getDataDescriptor.bind DataDescriptor.getClassification)
          w.getFileHeader w.getImageHeader "").outcome.value = true ∧
        env.writerExecute = true) := by
  obtain ⟨hp1, hp2, hp3, hp4⟩ :=
    exportView_preserves env self args dest w.getFileHeader w.getImageHeader
  have hcongr := exportClassification_outcome_congr env
    (exportView env self args dest w.getFileHeader w.getImageHeader).self self (some args)
    (raster.getDataDescriptor.bind DataDescriptor.getClassification)
    (exportView env self args dest w.getFileHeader w.getImageHeader).fileHeader
    w.getFileHeader
    (exportView env self args dest w.getFileHeader w.getImageHeader).imageHeader
    w.getImageHeader "" "" hp1 hp2 hp3 hp4
  rw [← hcongr]
  by_cases hc : isComplex dataType = true
  · refine ⟨false, ?_, ?_⟩
    · simp [executeStages, hdd, hc, finish]
    · simp [hc]
  · have hc1 : isComplex dataType = false := by simpa using hc
    by_cases hgt : dest.getColumnCount > 204800 ∨ dest.getRowCount > 204800
    · refine ⟨false, ?_, ?_⟩
      · simp [executeStages, hdd, hc1, validateExportDescriptor_of_gt dest "" hgt, finish]
      · have hle : ¬ (dest.getColumnCount ≤ 204800 ∧ dest.getRowCount ≤ 204800) := by omega
        simp [hle]
    · have hle : dest.getColumnCount ≤ 204800 ∧ dest.getRowCount ≤ 204800 := by omega
      by_cases hm : env.exportMetadata = false
      · refine ⟨false, ?_, ?_⟩
        · simp [executeStages, hdd, hc1, validateExportDescriptor_of_le dest "" hgt, hm, finish]
        · simp [hm]
      · have hm1 : env.exportMetadata = true := by simpa using hm
        by_cases hcl : (exportClassification env
            (exportView env self args dest w.getFileHeader w.getImageHeader).self (some args)
            (raster.getDataDescriptor.bind DataDescriptor.getClassification)
            (exportView env self args dest w.getFileHeader w.getImageHeader).fileHeader
            (exportView env self args dest w.getFileHeader w.getImageHeader).imageHeader
            "").outcome.value = true
        · by_cases hx : env.writerExecute = false
          · refine ⟨false, ?_, ?_⟩
            · simp [executeStages, hdd, hc1, validateExportDescriptor_of_le dest "" hgt, hm1,
                hverified, hcl, hx, finish]
            · simp [hx]
          · have hx1 : env.writerExecute = true := by simpa using hx
            refine ⟨true, ?_, ?_⟩
            · simp [executeStages, hdd, hc1, validateExportDescriptor_of_le dest "" hgt, hm1,
                hverified, hcl, hx1, finish]
            · simp [hc1, hle, hm1, hcl, hx1]
        · refine ⟨false, ?_, ?_⟩
          · simp [executeStages, hdd, hc1, validateExportDescriptor_of_le dest "" hgt, hm1,
              hverified, hcl, finish]
          · simp [hcl]

/-- C3: when the `VERIFY` preconditions of `execute` hold (arguments, writer,
headers, raster data descriptor and raster layer available), `execute`
returns, and it returns true exactly when the data type is neither
`INT4SCOMPLEX` nor `FLT8COMPLEX`, the export descriptor has at most 204800
rows and columns, `Nitf::exportMetadata` returns true, `exportClassification`
returns true and the OSSIM writer's `execute()` returns true. -/
theorem execute_true_iff_all_stages_succeed (env : Environment) (self : NitfExporter)
    (args : PlugInArgList) (p : Progress) (dest : RasterFileDescriptor)
    (raster : RasterElement) (w : Writer) (dataType : EncodingType)
    (hprogress : args.progress = some p)
    (hdest : args.exportDescriptor = some dest)
    (hraster : args.exportItem = some raster)
    (hwriter : env.createWriter = some w)
    (hheaders : w.getFileHeader.isSome = true ∧ w.getImageHeader.isSome = true)
    (hdd : raster.getDataDescriptor.bind DataDescriptor.getDataType = some dataType)
    (hlayer : ∀ pView pLayerList, args.view.bind View.asSpatialDataView = some pView →
      pView.getLayerList = some pLayerList →
      pLayerList.getPrimaryRasterElement = some raster.address →
      (pLayerList.getLayer (some raster.address)).isSome = true) :
    ∃ status, (execute env self (some args)).outcome = Outcome.returned status ∧
      (execute env self (some args)).outcome.value = status ∧
      (status = true ↔
        (dataType ≠ EncodingType.INT4SCOMPLEX ∧ dataType ≠ EncodingType.FLT8COMPLEX) ∧
        (dest.getColumnCount ≤ 204800 ∧ dest.getRowCount ≤ 204800) ∧
        env.exportMetadata = true ∧
        (exportClassification env self (some args)
          (raster.getDataDescriptor.bind DataDescriptor.getClassification)
          w.getFileHeader w.getImageHeader "").outcome.value = true ∧
        env.writerExecute = true) := by
  have hexec : execute env self (some args) =
      executeStages env
        { self with
          mpProgress := some (p ++ [{ text := "Writing metadata", percent := 0,
                                      level := ReportingLevel.NORMAL }])
          mpDestination := some dest
          mpRaster := some raster }
        args dest raster
        { w with
          calls := w.calls ++ [WriterCall.addListener,
            WriterCall.setFilename dest.getFilename] } := by
    simp [execute, hprogress, hdest, hraster, hwriter, hheaders]
  have hverified := exportView_verified env
    { self with
      mpProgress := some (p ++ [{ text := "Writing metadata", percent := 0,
                                  level := ReportingLevel.NORMAL }])
      mpDestination := some dest
      mpRaster := some raster }
    args dest w.getFileHeader w.getImageHeader hlayer
  obtain ⟨status, hout, hiff⟩ := executeStages_outcome env _ args dest raster
    { w with
      calls := w.calls ++ [WriterCall.addListener,
        WriterCall.setFilename dest.getFilename] } dataType hdd hverified
  refine ⟨status, ?_, ?_, ?_⟩
  · rw [hexec]
    exact hout
  · rw [hexec, hout]
    rfl
  · rw [hiff, isComplex_eq_false_iff]
    have hcongr := exportClassification_outcome_congr env
      { self with
        mpProgress := some (p ++ [{ text := "Writing metadata", percent := 0,
                                    level := ReportingLevel.NORMAL }])
        mpDestination := some dest
        mpRaster := some raster }
      self (some args)
      (raster.getDataDescriptor.bind DataDescriptor.getClassification)
      w.getFileHeader w.getFileHeader w.getImageHeader w.getImageHeader "" "" rfl rfl rfl rfl
    rw [hcongr]

/-- A C++ return value of true is a returned true. -/
theorem Outcome.value_eq_true_iff (o : Outcome) :
    o.value = true ↔ o = Outcome.returned true := by
  cases o with
  | verifyFailed => simp [Outcome.value]
  | returned status => simp [Outcome.value]

/-- What the stages of `execute` do to the writer: the calls they add hold
`execute` at most once and only after the four earlier checks passed, and a
complex data type leaves both headers alone. -/
theorem executeStages_writer (env : Environment) (self : NitfExporter) (args : PlugInArgList)
    (dest : RasterFileDescriptor) (raster : RasterElement) (w : Writer) :
    ∃ added,
      (executeStages env self args dest raster w).writer.map Writer.calls =
        some (w.calls ++ added) ∧
      added.count WriterCall.execute ≤ 1 ∧
      (WriterCall.execute ∈ added →
        ∃ dataType,
          raster.getDataDescriptor.bind DataDescriptor.getDataType = some dataType ∧
          isComplex dataType = false ∧
          (dest.getColumnCount ≤ 204800 ∧ dest.getRowCount ≤ 204800) ∧
          env.exportMetadata = true ∧
          (exportClassification env self (some args)
            (raster.getDataDescriptor.bind DataDescriptor.getClassification)
            w.getFileHeader w.getImageHeader "").outcome = Outcome.returned true) ∧
      (∀ dataType,
        raster.getDataDescriptor.bind DataDescriptor.getDataType = some dataType →
        isComplex dataType = true →
        WriterCall.execute ∉ added ∧ WriterCall.exportMetadata ∉ added ∧
          (executeStages env self args dest raster w).writer.bind Writer.getFileHeader =
            w.getFileHeader ∧
          (executeStages env self args dest raster w).writer.bind Writer.getImageHeader =
            w.getImageHeader) := by
  obtain ⟨hp1, hp2, hp3, hp4⟩ :=
    exportView_preserves env self args dest w.getFileHeader w.getImageHeader
  have hcongr := exportClassification_outcome_congr env
    (exportView env self args dest w.getFileHeader w.getImageHeader).self self (some args)
    (raster.getDataDescriptor.bind DataDescriptor.getClassification)
    (exportView env self args dest w.getFileHeader w.getImageHeader).fileHeader
    w.getFileHeader
    (exportView env self args dest w.getFileHeader w.getImageHeader).imageHeader
    w.getImageHeader "" "" hp1 hp2 hp3 hp4
  rw [← hcongr, ← Outcome.value_eq_true_iff]
  cases hdd : raster.getDataDescriptor.bind DataDescriptor.getDataType with
  | none =>
    refine ⟨[], ?_, ?_, ?_, ?_⟩
    · simp [executeStages, hdd]
    · simp
    · intro hmem
      cases hmem
    · intro dataType hd
      cases hd
  | some dataType =>
    by_cases hc : isComplex dataType = true
    · refine ⟨[WriterCall.removeListener], ?_, ?_, ?_, ?_⟩
      · simp [executeStages, hdd, hc, finish]
      · decide
      · intro hmem
        simp at hmem
      · intro dataType1 _ _
        simp [executeStages, hdd, hc, finish]
    · have hc1 : isComplex dataType = false := by simpa using hc
      have hnc : ∀ dataType1, some dataType = some dataType1 →
          ¬ isComplex dataType1 = true := by
        intro dataType1 he hc2
        cases he
        exact hc hc2
      by_cases hgt : dest.getColumnCount > 204800 ∨ dest.getRowCount > 204800
      · refine ⟨[WriterCall.removeListener], ?_, ?_, ?_, ?_⟩
        · simp [executeStages, hdd, hc1, validateExportDescriptor_of_gt dest "" hgt, finish]
        · decide
        · intro hmem
          simp at hmem
        · intro dataType1 he hc2
          exact absurd hc2 (hnc dataType1 he)
      · have hle : dest.getColumnCount ≤ 204800 ∧ dest.getRowCount ≤ 204800 := by omega
        by_cases hm : env.exportMetadata = false
        · refine ⟨[WriterCall.exportMetadata, WriterCall.removeListener], ?_, ?_, ?_, ?_⟩
          · simp [executeStages, hdd, hc1, validateExportDescriptor_of_le dest "" hgt, hm,
              finish]
          · decide
          · intro hmem
            simp at hmem
          · intro dataType1 he hc2
            exact absurd hc2 (hnc dataType1 he)
        · have hm1 : env.exportMetadata = true := by simpa using hm
          by_cases hver :
              (exportView env self args dest w.getFileHeader w.getImageHeader).verified = false
          · refine ⟨[WriterCall.exportMetadata], ?_, ?_, ?_, ?_⟩
            · simp [executeStages, hdd, hc1, validateExportDescriptor_of_le dest "" hgt, hm1,
                hver]
            · decide
            · intro hmem
              simp at hmem
            · intro dataType1 he hc2
              exact absurd hc2 (hnc dataType1 he)
          · have hver1 :
                (exportView env self args dest w.getFileHeader w.getImageHeader).verified =
                  true := by simpa using hver
            by_cases hcl : (exportClassification env
                (exportView env self args dest w.getFileHeader w.getImageHeader).self
                (some args)
                (raster.getDataDescriptor.bind DataDescriptor.getClassification)
                (exportView env self args dest w.getFileHeader w.getImageHeader).fileHeader
                (exportView env self args dest w.getFileHeader w.getImageHeader).imageHeader
                "").outcome.value = true
            · refine ⟨[WriterCall.exportMetadata, WriterCall.execute,
                  WriterCall.removeListener], ?_, ?_, ?_, ?_⟩
              · by_cases hx : env.writerExecute = false
                · simp [executeStages, hdd, hc1, validateExportDescriptor_of_le dest "" hgt,
                    hm1, hver1, hcl, hx, finish]
                · have hx1 : env.writerExecute = true := by simpa using hx
                  simp [executeStages, hdd, hc1, validateExportDescriptor_of_le dest "" hgt,
                    hm1, hver1, hcl, hx1, finish]
              · decide
              · intro _
                exact ⟨dataType, rfl, hc1, hle, hm1, hcl⟩
              · intro dataType1 he hc2
                exact absurd hc2 (hnc dataType1 he)
            · refine ⟨[WriterCall.exportMetadata, WriterCall.removeListener], ?_, ?_, ?_, ?_⟩
              · simp [executeStages, hdd, hc1, validateExportDescriptor_of_le dest "" hgt,
                  hm1, hver1, hcl, finish]
              · decide
              · intro hmem
                simp at hmem
              · intro dataType1 he hc2
                exact absurd hc2 (hnc dataType1 he)

/-- C4: the calls `execute` adds to the OSSIM writer contain the writer's
`execute()` at most once, and only when the data type is not complex, the
export descriptor is within the 204800 limit, metadata export succeeded and
`exportClassification` returned true. For a complex raster the writer is
never executed, metadata export is never attempted, and neither header
receives any setter call. -/
theorem execute_writer_execute_only_after_checks (env : Environment) (self : NitfExporter)
    (pInParam : Option PlugInArgList) (w1 : Writer)
    (h : (execute env self pInParam).writer = some w1) :
    ∃ w added, env.createWriter = some w ∧ w1.calls = w.calls ++ added ∧
      added.count WriterCall.execute ≤ 1 ∧
      (WriterCall.execute ∈ added →
        ∃ args dest raster dataType, pInParam = some args ∧
          args.exportDescriptor = some dest ∧ args.exportItem = some raster ∧
          raster.getDataDescriptor.bind DataDescriptor.getDataType = some dataType ∧
          (dataType ≠ EncodingType.INT4SCOMPLEX ∧ dataType ≠ EncodingType.FLT8COMPLEX) ∧
          (dest.getColumnCount ≤ 204800 ∧ dest.getRowCount ≤ 204800) ∧
          env.exportMetadata = true ∧
          (exportClassification env self (some args)
            (raster.getDataDescriptor.bind DataDescriptor.getClassification)
            w.getFileHeader w.getImageHeader "").outcome = Outcome.returned true) ∧
      (∀ args raster dataType, pInParam = some args → args.exportItem = some raster →
        raster.getDataDescriptor.bind DataDescriptor.getDataType = some dataType →
        (dataType = EncodingType.INT4SCOMPLEX ∨ dataType = EncodingType.FLT8COMPLEX) →
        WriterCall.execute ∉ added ∧ WriterCall.exportMetadata ∉ added ∧
          w1.getFileHeader = w.getFileHeader ∧ w1.getImageHeader = w.getImageHeader) := by
  cases pInParam with
  | none => simp [execute] at h
  | some args =>
    cases hprogress : args.progress with
    | none => simp [execute, hprogress] at h
    | some p =>
      cases hdest : args.exportDescriptor with
      | none => simp [execute, hprogress, hdest] at h
      | some dest =>
        cases hraster : args.exportItem with
        | none => simp [execute, hprogress, hdest, hraster] at h
        | some raster =>
          cases hwriter : env.createWriter with
          | none => simp [execute, hprogress, hdest, hraster, hwriter] at h
          | some w =>
            by_cases hheaders :
                w.getFileHeader.isSome = true ∧ w.getImageHeader.isSome = true
            · have hexec : execute env self (some args) =
                  executeStages env
                    { self with
                      mpProgress := some (p ++ [{ text := "Writing metadata", percent := 0,
                                                  level := ReportingLevel.NORMAL }])
                      mpDestination := some dest
                      mpRaster := some raster }
                    args dest raster
                    { w with
                      calls := w.calls ++ [WriterCall.addListener,
                        WriterCall.setFilename dest.getFilename] } := by
                simp [execute, hprogress, hdest, hraster, hwriter, hheaders]
              obtain ⟨added, hcalls, hcount, hmem, hcomplex⟩ :=
                executeStages_writer env
                  { self with
                    mpProgress := some (p ++ [{ text := "Writing metadata", percent := 0,
                                                level := ReportingLevel.NORMAL }])
                    mpDestination := some dest
                    mpRaster := some raster }
                  args dest raster
                  { w with
                    calls := w.calls ++ [WriterCall.addListener,
                      WriterCall.setFilename dest.getFilename] }
              rw [← hexec, h] at hcalls hcomplex
              have hcongr := exportClassification_outcome_congr env
                { self with
                  mpProgress := some (p ++ [{ text := "Writing metadata", percent := 0,
                                              level := ReportingLevel.NORMAL }])
                  mpDestination := some dest
                  mpRaster := some raster }
                self (some args)
                (raster.getDataDescriptor.bind DataDescriptor.getClassification)
                w.getFileHeader w.getFileHeader w.getImageHeader w.getImageHeader "" ""
                rfl rfl rfl rfl
              refine ⟨w, [WriterCall.addListener, WriterCall.setFilename dest.getFilename] ++
                added, rfl, ?_, ?_, ?_, ?_⟩
              · simpa using hcalls
              · simpa using hcount
              · intro hin
                have hin1 : WriterCall.execute ∈ added := by simpa using hin
                obtain ⟨dataType, hdd, hc, hle, hm, hcl⟩ := hmem hin1
                refine ⟨args, dest, raster, dataType, rfl, hdest, hraster, hdd,
                  (isComplex_eq_false_iff dataType).mp hc, hle, hm, ?_⟩
                rw [← hcongr]
                exact hcl
              · intro args1 raster1 dataType ha hr hdd hc
                cases ha
                rw [hraster] at hr
                cases hr
                have hc1 : isComplex dataType = true := by
                  simpa [isComplex] using hc
                obtain ⟨h1, h2, h3, h4⟩ := hcomplex dataType hdd hc1
                refine ⟨?_, ?_, ?_, ?_⟩
                · simpa using h1
                · simpa using h2
                · simpa using h3
                · simpa using h4
            · have hw1 : w1 = w := by
                simp [execute, hprogress, hdest, hraster, hwriter, hheaders] at h
                exact h.symm
              subst hw1
              refine ⟨w1, [], rfl, ?_, ?_, ?_, ?_⟩
              · simp
              · simp
              · intro hin
                cases hin
              · intro _ _ _ _ _ _ _
                simp

/-! ## Witnesses -/

/-- The layer list of `batchArgs` has a raster layer for the exported
element. -/
theorem batchArgs_layer :
    ∀ pView pLayerList, batchArgs.view.bind View.asSpatialDataView = some pView →
      pView.getLayerList = some pLayerList →
      pLayerList.getPrimaryRasterElement = some sampleRaster.address →
      (pLayerList.getLayer (some sampleRaster.address)).isSome = true := by
  intro pView pLayerList hview hlist _
  simp only [batchArgs, sampleArgs, sampleView, Option.bind, Option.some.injEq] at hview
  subst hview
  simp only [Option.some.injEq] at hlist
  subst hlist
  rfl

/-- Witness of C3: a three-band real raster shown in RGB mode satisfies every
precondition. -/
theorem execute_true_iff_all_stages_succeed_witness :
    batchArgs.progress = some [] ∧
    batchArgs.exportDescriptor = some sampleDescriptor ∧
    batchArgs.exportItem = some sampleRaster ∧
    validEnvironment.createWriter = some sampleWriter ∧
    (sampleWriter.getFileHeader.isSome = true ∧ sampleWriter.getImageHeader.isSome = true) ∧
    sampleRaster.getDataDescriptor.bind DataDescriptor.getDataType = some (EncodingType.other 0) ∧
    (∀ pView pLayerList, batchArgs.view.bind View.asSpatialDataView = some pView
      → pView.getLayerList = some pLayerList
      → pLayerList.getPrimaryRasterElement = some sampleRaster.address
      → (pLayerList.getLayer (some sampleRaster.address)).isSome = true) ∧
    (∃ status, (execute validEnvironment batchExporter
        (some batchArgs)).outcome = Outcome.returned status
      ∧ (execute validEnvironment batchExporter (some batchArgs)).outcome.value = status
      ∧ (status = true ↔ ((EncodingType.other 0) ≠ EncodingType.INT4SCOMPLEX
      ∧ (EncodingType.other 0) ≠ EncodingType.FLT8COMPLEX)
      ∧ (sampleDescriptor.getColumnCount ≤ 204800 ∧ sampleDescriptor.getRowCount ≤ 204800)
      ∧ validEnvironment.exportMetadata = true
      ∧ (exportClassification validEnvironment batchExporter (some batchArgs)
          (sampleRaster.getDataDescriptor.bind DataDescriptor.getClassification)
          sampleWriter.getFileHeader sampleWriter.getImageHeader "").outcome.value = true
      ∧ validEnvironment.writerExecute = true)) :=
  ⟨rfl, rfl, rfl, rfl, ⟨rfl, rfl⟩, rfl, batchArgs_layer,
    execute_true_iff_all_stages_succeed validEnvironment batchExporter batchArgs []
      sampleDescriptor sampleRaster sampleWriter (EncodingType.other 0) rfl rfl rfl rfl
      ⟨rfl, rfl⟩ rfl batchArgs_layer⟩

/-- Witness of C4: for a complex raster the writer is left with the listener
calls only. -/
theorem execute_writer_execute_only_after_checks_witness :
    (execute validEnvironment batchExporter (some complexArgs)).writer = some rejectedWriter ∧
    (∃ w added, validEnvironment.createWriter = some w ∧ rejectedWriter.calls = w.calls ++ added
      ∧ added.count WriterCall.execute ≤ 1 ∧ (WriterCall.execute ∈ added
      → ∃ args dest raster dataType, (some complexArgs) = some args
      ∧ args.exportDescriptor = some dest ∧ args.exportItem = some raster
      ∧ raster.getDataDescriptor.bind DataDescriptor.getDataType = some dataType
      ∧ (dataType ≠ EncodingType.INT4SCOMPLEX ∧ dataType ≠ EncodingType.FLT8COMPLEX)
      ∧ (dest.getColumnCount ≤ 204800 ∧ dest.getRowCount ≤ 204800)
      ∧ validEnvironment.exportMetadata = true
      ∧ (exportClassification validEnvironment batchExporter (some args)
          (raster.getDataDescriptor.bind DataDescriptor.getClassification)
          w.getFileHeader w.getImageHeader "").outcome = Outcome.returned true)
      ∧ (∀ args raster dataType, (some complexArgs) = some args
      → args.exportItem = some raster
      → raster.getDataDescriptor.bind DataDescriptor.getDataType = some dataType
      → (dataType = EncodingType.INT4SCOMPLEX ∨ dataType = EncodingType.FLT8COMPLEX)
      → WriterCall.execute ∉ added ∧ WriterCall.exportMetadata ∉ added
      ∧ rejectedWriter.getFileHeader = w.getFileHeader
      ∧ rejectedWriter.getImageHeader = w.getImageHeader)) :=
  ⟨by decide,
    execute_writer_execute_only_after_checks validEnvironment batchExporter
      (some complexArgs) rejectedWriter (by decide)⟩

/-- Witness of C5: a valid classification at level secret is marked on both
headers, and an invalid one whose level the options widget changed to `"U"` leaves both
headers alone. -/
theorem exportClassification_marks_iff_level_ne_U_witness :
    (exportClassification validEnvironment batchExporter (some batchArgs)
        (some sampleClassification) (some []) (some []) "").outcome.value = true ∧
    (∃ args c fileCalls imageCalls, (some batchArgs) = some args
      ∧ (some sampleClassification) = some c
      ∧ (exportClassification validEnvironment batchExporter (some batchArgs)
          (some sampleClassification) (some []) (some []) "").fileHeader = (some []).map
          (fun fh => fh ++ fileCalls)
      ∧ (exportClassification validEnvironment batchExporter (some batchArgs)
          (some sampleClassification) (some []) (some []) "").imageHeader = (some []).map
          (fun ih => ih ++ imageCalls)
      ∧ (fileCalls ≠ [] ↔ effectiveLevel validEnvironment batchExporter args c ≠ "U")
      ∧ (imageCalls ≠ [] ↔ effectiveLevel validEnvironment batchExporter args c ≠ "U")
      ∧ (∀ call ∈ fileCalls, call.security.isSome = true
      ∨ (∃ s, call = FileHeaderCall.setCopyNumber s)
      ∨ (∃ s, call = FileHeaderCall.setNumberOfCopies s))
      ∧ (∀ call ∈ imageCalls, call.security.isSome = true)
      ∧ ((exportClassification validEnvironment batchExporter (some batchArgs)
          (some sampleClassification) (some []) (some []) "").fileHeader ≠ (some [])
      ↔ effectiveLevel validEnvironment batchExporter args c ≠ "U")
      ∧ ((exportClassification validEnvironment batchExporter (some batchArgs)
          (some sampleClassification) (some []) (some []) "").imageHeader ≠ (some [])
      ↔ effectiveLevel validEnvironment batchExporter args c ≠ "U")
      ∧ (effectiveLevel validEnvironment batchExporter args c = "U"
      → (exportClassification validEnvironment batchExporter (some batchArgs)
          (some sampleClassification) (some []) (some []) "").fileHeader = (some [])
      ∧ (exportClassification validEnvironment batchExporter (some batchArgs)
          (some sampleClassification) (some []) (some []) "").imageHeader = (some []))
      ∧ (effectiveLevel validEnvironment batchExporter args c ≠ "U"
      → (∀ f : SecurityField, (heldAfter (fileCalls.map FileHeaderCall.security) f).isSome = true
      ∧ (heldAfter (imageCalls.map ImageHeaderCall.security) f).isSome = true)
      ∧ heldAfter (fileCalls.map FileHeaderCall.security) SecurityField.classificationLevel = some
          (effectiveLevel validEnvironment batchExporter args c)
      ∧ heldAfter
          (imageCalls.map ImageHeaderCall.security) SecurityField.classificationLevel = some
          (effectiveLevel validEnvironment batchExporter args c)
      ∧ (∃ s, FileHeaderCall.setCopyNumber s ∈ fileCalls)
      ∧ (∃ s, FileHeaderCall.setNumberOfCopies s ∈ fileCalls) ∧ fileCalls.length = 18
      ∧ imageCalls.length = 16
      ∧ ∃ fh1 ih1, (exportClassification validEnvironment batchExporter (some batchArgs)
          (some sampleClassification) (some []) (some []) "").fileHeader = some fh1
      ∧ (exportClassification validEnvironment batchExporter (some batchArgs)
          (some sampleClassification) (some []) (some []) "").imageHeader = some ih1
      ∧ ∀ f : SecurityField, (heldByFileHeader fh1 f).isSome = true
      ∧ (heldByImageHeader ih1 f).isSome = true ∧ (f = SecurityField.classificationLevel
      → heldByFileHeader fh1 f = some (effectiveLevel validEnvironment batchExporter args c)
      ∧ heldByImageHeader ih1 f = some (effectiveLevel validEnvironment batchExporter args c)))) ∧
    (exportClassification invalidEnvironment interactiveExporter (some batchArgs)
        (some sampleClassification) (some []) (some []) "").outcome.value = true ∧
    (∃ args c fileCalls imageCalls, (some batchArgs) = some args
      ∧ (some sampleClassification) = some c
      ∧ (exportClassification invalidEnvironment interactiveExporter (some batchArgs)
          (some sampleClassification) (some []) (some []) "").fileHeader = (some []).map
          (fun fh => fh ++ fileCalls)
      ∧ (exportClassification invalidEnvironment interactiveExporter (some batchArgs)
          (some sampleClassification) (some []) (some []) "").imageHeader = (some []).map
          (fun ih => ih ++ imageCalls)
      ∧ (fileCalls ≠ [] ↔ effectiveLevel invalidEnvironment interactiveExporter args c ≠ "U")
      ∧ (imageCalls ≠ [] ↔ effectiveLevel invalidEnvironment interactiveExporter args c ≠ "U")
      ∧ (∀ call ∈ fileCalls, call.security.isSome = true
      ∨ (∃ s, call = FileHeaderCall.setCopyNumber s)
      ∨ (∃ s, call = FileHeaderCall.setNumberOfCopies s))
      ∧ (∀ call ∈ imageCalls, call.security.isSome = true)
      ∧ ((exportClassification invalidEnvironment interactiveExporter (some batchArgs)
          (some sampleClassification) (some []) (some []) "").fileHeader ≠ (some [])
      ↔ effectiveLevel invalidEnvironment interactiveExporter args c ≠ "U")
      ∧ ((exportClassification invalidEnvironment interactiveExporter (some batchArgs)
          (some sampleClassification) (some []) (some []) "").imageHeader ≠ (some [])
      ↔ effectiveLevel invalidEnvironment interactiveExporter args c ≠ "U")
      ∧ (effectiveLevel invalidEnvironment interactiveExporter args c = "U"
      → (exportClassification invalidEnvironment interactiveExporter (some batchArgs)
          (some sampleClassification) (some []) (some []) "").fileHeader = (some [])
      ∧ (exportClassification invalidEnvironment interactiveExporter (some batchArgs)
          (some sampleClassification) (some []) (some []) "").imageHeader = (some []))
      ∧ (effectiveLevel invalidEnvironment interactiveExporter args c ≠ "U"
      → (∀ f : SecurityField, (heldAfter (fileCalls.map FileHeaderCall.security) f).isSome = true
      ∧ (heldAfter (imageCalls.map ImageHeaderCall.security) f).isSome = true)
      ∧ heldAfter (fileCalls.map FileHeaderCall.security) SecurityField.classificationLevel = some
          (effectiveLevel invalidEnvironment interactiveExporter args c)
      ∧ heldAfter
          (imageCalls.map ImageHeaderCall.security) SecurityField.classificationLevel = some
          (effectiveLevel invalidEnvironment interactiveExporter args c)
      ∧ (∃ s, FileHeaderCall.setCopyNumber s ∈ fileCalls)
      ∧ (∃ s, FileHeaderCall.setNumberOfCopies s ∈ fileCalls) ∧ fileCalls.length = 18
      ∧ imageCalls.length = 16
      ∧ ∃ fh1 ih1, (exportClassification invalidEnvironment interactiveExporter (some batchArgs)
          (some sampleClassification) (some []) (some []) "").fileHeader = some fh1
      ∧ (exportClassification invalidEnvironment interactiveExporter (some batchArgs)
          (some sampleClassification) (some []) (some []) "").imageHeader = some ih1
      ∧ ∀ f : SecurityField, (heldByFileHeader fh1 f).isSome = true
      ∧ (heldByImageHeader ih1 f).isSome = true ∧ (f = SecurityField.classificationLevel
      → heldByFileHeader fh1 f = some (effectiveLevel invalidEnvironment interactiveExporter args c)
      ∧ heldByImageHeader ih1 f = some
          (effectiveLevel invalidEnvironment interactiveExporter args c)))) ∧
    effectiveLevel validEnvironment batchExporter batchArgs sampleClassification = "S" ∧
    (exportClassification validEnvironment batchExporter (some batchArgs)
        (some sampleClassification) (some []) (some []) "").fileHeader.map
        (fun fh => heldByFileHeader fh SecurityField.classificationLevel) = some (some "S") ∧
    (exportClassification validEnvironment batchExporter (some batchArgs)
        (some sampleClassification) (some []) (some []) "").imageHeader.map
        (fun ih => heldByImageHeader ih SecurityField.classificationLevel) = some (some "S") ∧
    effectiveLevel invalidEnvironment interactiveExporter batchArgs sampleClassification = "U" ∧
    (exportClassification invalidEnvironment interactiveExporter (some batchArgs)
        (some sampleClassification) (some []) (some []) "").fileHeader = some [] ∧
    (exportClassification invalidEnvironment interactiveExporter (some batchArgs)
        (some sampleClassification) (some []) (some []) "").imageHeader = some [] :=
  ⟨by decide,
    exportClassification_marks_iff_level_ne_U validEnvironment batchExporter
      (some batchArgs) (some sampleClassification) (some []) (some []) "" (by decide),
    by decide,
    exportClassification_marks_iff_level_ne_U invalidEnvironment interactiveExporter
      (some batchArgs) (some sampleClassification) (some []) (some []) "" (by decide),
    by decide,
    by decide,
    by decide,
    by decide,
    by decide,
    by decide⟩

/-- Witness of C6: a valid classification at level secret is exported. -/
theorem exportClassification_image_markings_eq_file_markings_witness :
    (exportClassification validEnvironment batchExporter (some batchArgs)
        (some sampleClassification) (some []) (some []) "").outcome.value = true ∧
    effectiveLevel validEnvironment batchExporter batchArgs sampleClassification ≠ "U" ∧
    (∃ fh0 ih0 fh ih m, (some []) = some fh0 ∧ (some []) = some ih0
      ∧ (exportClassification validEnvironment batchExporter (some batchArgs)
          (some sampleClassification) (some []) (some []) "").fileHeader = some fh
      ∧ (exportClassification validEnvironment batchExporter (some batchArgs)
          (some sampleClassification) (some []) (some []) "").imageHeader = some ih
      ∧ fh = fh0 ++ fileHeaderMarkingCalls m ∧ ih = ih0 ++ imageHeaderMarkingCalls m
      ∧ (imageHeaderMarkingCalls m).length = 16
      ∧ ∀ f : SecurityField, ∃ s, heldByImageHeader ih f = some s
      ∧ heldByFileHeader fh f = some s) :=
  ⟨by decide, by decide,
    exportClassification_image_markings_eq_file_markings validEnvironment batchExporter
      batchArgs sampleClassification (some []) (some []) "" (by decide) (by decide)⟩

/-- Witness of C7: an invalid classification at level secret with the argument
false has its own markings written to both headers; with the argument true it is
refused and both headers stay empty. -/
theorem exportClassification_batch_invalid_witness :
    batchExporter.isBatch = true ∧
    invalidEnvironment.isClassificationValidForExport sampleClassification = false ∧
    lenientArgs.classificationMustBeValid = some false ∧
    (((exportClassification invalidEnvironment batchExporter (some lenientArgs)
        (some sampleClassification) (some []) (some []) "").outcome.value = false
      ↔ false = true) ∧ (false = true
      → (exportClassification invalidEnvironment batchExporter (some lenientArgs)
          (some sampleClassification) (some []) (some []) "").outcome = Outcome.returned false
      ∧ (exportClassification invalidEnvironment batchExporter (some lenientArgs)
          (some sampleClassification) (some [])
          (some []) "").errorMessage = "Classification is not valid."
      ∧ (exportClassification invalidEnvironment batchExporter (some lenientArgs)
          (some sampleClassification) (some []) (some []) "").fileHeader = some []
      ∧ (exportClassification invalidEnvironment batchExporter (some lenientArgs)
          (some sampleClassification) (some []) (some []) "").imageHeader = some [])
      ∧ (false = false
      → (exportClassification invalidEnvironment batchExporter (some lenientArgs)
          (some sampleClassification) (some []) (some []) "").outcome = Outcome.returned true
      ∧ (exportClassification invalidEnvironment batchExporter (some lenientArgs)
          (some sampleClassification) (some []) (some []) "").errorMessage = ""
      ∧ (exportClassification invalidEnvironment batchExporter (some lenientArgs)
          (some sampleClassification) (some []) (some []) "").fileHeader =
          (if sampleClassification.getLevel ≠ "U" then some
          ([] ++ [ FileHeaderCall.setFileSecurityClassification sampleClassification.getLevel,
              FileHeaderCall.setSecurityClassificationSys sampleClassification.getSystem,
              FileHeaderCall.setCodeWords sampleClassification.getCodewords,
              FileHeaderCall.setControlAndHandling sampleClassification.getFileControl,
              FileHeaderCall.setReleasingInstructions sampleClassification.getFileReleasing,
              FileHeaderCall.setDeclassificationType sampleClassification.getDeclassificationType,
              FileHeaderCall.setDeclassificationDate
          ((sampleClassification.getDeclassificationDate.map fun d => d.getFormattedUtc "%Y%m%d").getD ""),
              FileHeaderCall.setDeclassificationExemption sampleClassification.getDeclassificationExemption,
              FileHeaderCall.setDowngrade sampleClassification.getFileDowngrade,
              FileHeaderCall.setDowngradingDate
          ((sampleClassification.getDowngradeDate.map fun d => d.getFormattedUtc "%Y%m%d").getD ""),
              FileHeaderCall.setClassificationAuthorityType sampleClassification.getAuthorityType,
              FileHeaderCall.setClassificationAuthority sampleClassification.getAuthority,
              FileHeaderCall.setClassificationReason sampleClassification.getClassificationReason,
              FileHeaderCall.setSecuritySourceDate
          ((sampleClassification.getSecuritySourceDate.map fun d => d.getFormattedUtc "%Y%m%d").getD ""),
              FileHeaderCall.setSecurityControlNumber sampleClassification.getSecurityControlNumber,
              FileHeaderCall.setCopyNumber sampleClassification.getFileCopyNumber,
              FileHeaderCall.setNumberOfCopies sampleClassification.getFileNumberOfCopies,
              FileHeaderCall.setClassificationText sampleClassification.getDescription ]) else some [])
      ∧ (exportClassification invalidEnvironment batchExporter (some lenientArgs)
          (some sampleClassification) (some []) (some []) "").imageHeader =
          (if sampleClassification.getLevel ≠ "U" then some
          ([] ++ [ ImageHeaderCall.setSecurityClassification sampleClassification.getLevel,
              ImageHeaderCall.setSecurityClassificationSystem sampleClassification.getSystem,
              ImageHeaderCall.setCodewords sampleClassification.getCodewords,
              ImageHeaderCall.setControlAndHandling sampleClassification.getFileControl,
              ImageHeaderCall.setReleasingInstructions sampleClassification.getFileReleasing,
              ImageHeaderCall.setDeclassificationType sampleClassification.getDeclassificationType,
              ImageHeaderCall.setDeclassificationDate
          ((sampleClassification.getDeclassificationDate.map fun d => d.getFormattedUtc "%Y%m%d").getD ""),
              ImageHeaderCall.setDeclassificationExempt sampleClassification.getDeclassificationExemption,
              ImageHeaderCall.setDowngrade sampleClassification.getFileDowngrade,
              ImageHeaderCall.setDowngradeDate
          ((sampleClassification.getDowngradeDate.map fun d => d.getFormattedUtc "%Y%m%d").getD ""),
              ImageHeaderCall.setClassificationAuthorityType sampleClassification.getAuthorityType,
              ImageHeaderCall.setClassificationAuthority sampleClassification.getAuthority,
              ImageHeaderCall.setClassificationReason sampleClassification.getClassificationReason,
              ImageHeaderCall.setSecuritySourceDate
          ((sampleClassification.getSecuritySourceDate.map fun d => d.getFormattedUtc "%Y%m%d").getD ""),
              ImageHeaderCall.setSecurityControlNumber sampleClassification.getSecurityControlNumber,
              ImageHeaderCall.setClassificationText sampleClassification.getDescription ]) else some []))) ∧
    (exportClassification invalidEnvironment batchExporter (some lenientArgs)
        (some sampleClassification) (some []) (some []) "").outcome = Outcome.returned true ∧
    (exportClassification invalidEnvironment batchExporter (some lenientArgs)
        (some sampleClassification) (some []) (some []) "").fileHeader = some [
        FileHeaderCall.setFileSecurityClassification "S",
        FileHeaderCall.setSecurityClassificationSys "US",
        FileHeaderCall.setCodeWords "",
        FileHeaderCall.setControlAndHandling "",
        FileHeaderCall.setReleasingInstructions "",
        FileHeaderCall.setDeclassificationType "DD",
        FileHeaderCall.setDeclassificationDate "20300101",
        FileHeaderCall.setDeclassificationExemption "",
        FileHeaderCall.setDowngrade "",
        FileHeaderCall.setDowngradingDate "",
        FileHeaderCall.setClassificationAuthorityType "O",
        FileHeaderCall.setClassificationAuthority "authority",
        FileHeaderCall.setClassificationReason "A",
        FileHeaderCall.setSecuritySourceDate "",
        FileHeaderCall.setSecurityControlNumber "1",
        FileHeaderCall.setCopyNumber "00001",
        FileHeaderCall.setNumberOfCopies "00002",
        FileHeaderCall.setClassificationText "text"] ∧
    (exportClassification invalidEnvironment batchExporter (some lenientArgs)
        (some sampleClassification) (some []) (some []) "").imageHeader = some [
        ImageHeaderCall.setSecurityClassification "S",
        ImageHeaderCall.setSecurityClassificationSystem "US",
        ImageHeaderCall.setCodewords "",
        ImageHeaderCall.setControlAndHandling "",
        ImageHeaderCall.setReleasingInstructions "",
        ImageHeaderCall.setDeclassificationType "DD",
        ImageHeaderCall.setDeclassificationDate "20300101",
        ImageHeaderCall.setDeclassificationExempt "",
        ImageHeaderCall.setDowngrade "",
        ImageHeaderCall.setDowngradeDate "",
        ImageHeaderCall.setClassificationAuthorityType "O",
        ImageHeaderCall.setClassificationAuthority "authority",
        ImageHeaderCall.setClassificationReason "A",
        ImageHeaderCall.setSecuritySourceDate "",
        ImageHeaderCall.setSecurityControlNumber "1",
        ImageHeaderCall.setClassificationText "text"] ∧
    batchArgs.classificationMustBeValid = some true ∧
    (exportClassification invalidEnvironment batchExporter (some batchArgs)
        (some sampleClassification) (some []) (some []) "").outcome = Outcome.returned false ∧
    (exportClassification invalidEnvironment batchExporter (some batchArgs)
        (some sampleClassification) (some [])
        (some []) "").errorMessage = "Classification is not valid." ∧
    (exportClassification invalidEnvironment batchExporter (some batchArgs)
        (some sampleClassification) (some []) (some []) "").fileHeader = some [] ∧
    (exportClassification invalidEnvironment batchExporter (some batchArgs)
        (some sampleClassification) (some []) (some []) "").imageHeader = some [] :=
  ⟨rfl,
    rfl,
    rfl,
    exportClassification_batch_invalid invalidEnvironment batchExporter lenientArgs
      sampleClassification [] [] "" false rfl rfl rfl,
    by decide,
    by decide,
    by decide,
    rfl,
    by decide,
    by decide,
    by decide,
    by decide⟩

/-- Witness of C8: an invalid classification that must be valid. -/
theorem validate_batch_witness :
    batchExporter.isBatch = true ∧
    batchArgs.classificationMustBeValid = some true ∧
    ((validate invalidEnvironment batchExporter
        (some batchArgs) "").1 ≠ ValidationResultType.VALIDATE_INFO
      ∧ ((validate invalidEnvironment batchExporter
          (some batchArgs) "").1 = ValidationResultType.VALIDATE_SUCCESS
      ↔ (∃ d, batchArgs.exportDescriptor = some d ∧ d.getColumnCount ≤ 204800
      ∧ d.getRowCount ≤ 204800) ∧ (true = false
      ∨ ∃ pRasterElement pDataDescriptor pClassification,
        batchArgs.exportItem = some pRasterElement
      ∧ pRasterElement.getDataDescriptor = some pDataDescriptor
      ∧ pDataDescriptor.getClassification = some pClassification
      ∧ invalidEnvironment.isClassificationValidForExport pClassification = true))
      ∧ ((validate invalidEnvironment batchExporter
          (some batchArgs) "").1 ≠ ValidationResultType.VALIDATE_SUCCESS
      → (validate invalidEnvironment batchExporter
          (some batchArgs) "").1 = ValidationResultType.VALIDATE_FAILURE)) :=
  ⟨rfl, rfl,
    validate_batch invalidEnvironment batchExporter batchArgs "" true rfl rfl⟩

end Nitf

